import Mathlib

/-!
# Job lifecycle client of the combined upload UI (`frontend/src/App.jsx`)

A shallow embedding of the React component `App`: its nine state cells, the
selection handlers, `startProcessing`, the interval callback created by
`pollStatus`, and `resetView`.

Conventions of the embedding

* a JavaScript value that may be `null`/`undefined` is an `Option`;
* `a || b` on an optional string is `jsOr` (the empty string is falsy);
* `s.startsWith(p)` is `jsStartsWith`;
* `progress` is an `Int` (the code only ever stores whole numbers in it);
* an `await` is resolved by the service's answer, which the embedding takes
  as an argument: `intervalCallback` is one run of the callback from its first
  statement to its last on the answers it is given (`TickResponse`);
  `World.tick`, `World.runTicks` and `Env.runTicks` therefore describe ticks
  whose answer is handled before the next tick of the timer fires, which the
  code does not enforce;
* every outbound request is appended to a log (`requests`), every
  `setTimeout(() => setView('results'), 500)` is counted in `delayed` until the
  browser fires it (`viewTimeout`);
* the DOM is not part of the state: the writes to the `value` of the two file
  inputs in `removeImageFile`, `removeVideoFile` and `resetView` are left out;
* which operations the rendered page lets happen in a state is `Op.enabled`,
  read off the JSX; `Hist` adds to the page a record of the jobs seen
  completed, which the code does not keep;
* the JSX of the results view is `renderResults`: it yields what is shown, or
  the `TypeError` a property access or method call on `undefined` throws;
* `AsyncSession` splits the interval callback at its first `await`, so that a
  tick of the timer and the arrival of an answer are separate events, as they
  are for `setInterval` with an `async` callback; the sequential callback is
  the one followed directly by the other, and what is said of a whole polling
  session is said of `AsyncSession.run`.
-/

namespace RailGuard

/-! ## Data model -/

/-- The part of a browser `File` the component reads. -/
structure File where
  name : String
  type : String
  size : Nat
deriving DecidableEq, Repr

/-- Values of the `view` state cell. -/
inductive View where
  | upload
  | processing
  | results
deriving DecidableEq, Repr

/-- The argument of `startProcessing`: the call sites pass `'image'` or `'video'`. -/
inductive MediaType where
  | image
  | video
deriving DecidableEq, Repr

/-- The object `results.images` / `frame.images`. -/
structure Images where
  original : Option String
  before : Option String
  enhanced : Option String
  comparison : Option String
deriving DecidableEq, Repr

/-- The object `results.blur_detection`. -/
structure BlurDetection where
  level : Option String
  laplacian_variance : Option Int
deriving DecidableEq, Repr

/-- The object `ocr_result` of a result or of a frame. -/
structure OcrResult where
  blur_confidence : Option String
  enhanced_confidence : Option String
  improvement : Option String
deriving DecidableEq, Repr

/-- One element of `results.sample_frames`. -/
structure Frame where
  frame_id : String
  frame_number : Int
  images : Option Images
  blur_level : Option String
  confidence_level : Option String
  ocr_result : Option OcrResult
deriving DecidableEq, Repr

/-- The body of `GET /result/{job_id}` as far as the component reads it. -/
structure Payload where
  images : Option Images
  blur_detection : Option BlurDetection
  confidence_level : Option String
  ocr_result : Option OcrResult
  total_frames : Option Int
  processed_frames : Option Int
  sample_frames : Option (List Frame)
deriving DecidableEq, Repr

/-- The nine `useState` cells of `App` (App.jsx lines 13-21). -/
structure AppState where
  view : View
  imageFile : Option File
  videoFile : Option File
  fileType : Option MediaType
  progress : Int
  jobId : Option String
  results : Option Payload
  error : Option String
  processing : Bool
deriving DecidableEq, Repr

/-- The initial values passed to `useState`. -/
def AppState.initial : AppState :=
  { view := .upload, imageFile := none, videoFile := none, fileType := none,
    progress := 0, jobId := none, results := none, error := none,
    processing := false }

/-! ## JavaScript helpers -/

/-- The method call `s.startsWith(p)`. -/
def jsStartsWith (s p : String) : Bool :=
  p.data.isPrefixOf s.data

/-- The expression `a || b` where `a` is an optional string: `undefined`, `null` and `''` are falsy. -/
def jsOr (a : Option String) (b : String) : String :=
  match a with
  | some s => if s = "" then b else s
  | none => b

/-! ## Selection handlers (App.jsx lines 23-69) -/

/-- The handler `handleImageSelect(e)` with `e.target.files[0]` given as `selectedFile`. -/
def handleImageSelect (s : AppState) (selectedFile : Option File) : AppState :=
  match selectedFile with
  | none => s
  | some f =>
    if jsStartsWith f.type "image/" then
      { s with imageFile := some f, videoFile := none, error := none }
    else
      { s with error := some "Please select a valid image file (PNG, JPG, JPEG)",
               imageFile := none }

/-- The handler `handleVideoSelect(e)` with `e.target.files[0]` given as `selectedFile`. -/
def handleVideoSelect (s : AppState) (selectedFile : Option File) : AppState :=
  match selectedFile with
  | none => s
  | some f =>
    if jsStartsWith f.type "video/" then
      { s with videoFile := some f, imageFile := none, error := none }
    else
      { s with error := some "Please select a valid video file (MP4, AVI, MOV, MKV)",
               videoFile := none }

/-- The handler `removeImageFile(e)`. -/
def removeImageFile (s : AppState) : AppState :=
  { s with imageFile := none }

/-- The handler `removeVideoFile(e)`. -/
def removeVideoFile (s : AppState) : AppState :=
  { s with videoFile := none }

/-- The handler `resetView()` (App.jsx lines 149-162). -/
def resetView (s : AppState) : AppState :=
  { s with view := .upload, imageFile := none, videoFile := none, fileType := none,
           progress := 0, jobId := none, results := none, error := none,
           processing := false }

/-! ## Outbound requests and the service's answers (services/api.js) -/

/-- The four calls of `services/api.js` the component makes. -/
inductive Request where
  -- `processFrame(file)`: POST `/process/frame`, form field `image`
  | processFrame (file : File)
  -- `processVideo(file)`: POST `/process/video`, form field `video`
  | processVideo (file : File)
  -- `getProcessingStatus(jobId)`: GET `/status/$jobId`
  | getProcessingStatus (jobId : String)
  -- `getResult(jobId)`: GET `/result/$jobId`
  | getResult (jobId : String)
deriving DecidableEq, Repr

/-- Outcome of `await processFrame(file)` / `await processVideo(file)`:
the promise resolves with `response.data.job_id`, or rejects with
`err.response?.data?.error` possibly absent. -/
inductive SubmitResponse where
  | ok (job_id : String)
  | fail (error : Option String)
deriving DecidableEq, Repr

/-- Outcome of `await getProcessingStatus(jobId)`: the promise resolves with
`data.status` and the optional `data.error`, or rejects with
`err.response?.data?.error` possibly absent. -/
inductive StatusResponse where
  | ok (status : String) (error : Option String)
  | fail (error : Option String)
deriving DecidableEq, Repr

/-- Outcome of `await getResult(jobId)`. -/
inductive ResultResponse where
  | ok (data : Payload)
  | fail (error : Option String)
deriving DecidableEq, Repr

/-- What the service answers during one tick: the answer to the status query
and the answer to the follow-up result fetch (read only when the callback
issues that fetch). -/
structure TickResponse where
  status : StatusResponse
  result : ResultResponse
deriving DecidableEq, Repr

/-! ## The poller (App.jsx lines 105-147) -/

/-- The closure created by one call of `pollStatus(jobId)`: the captured
`jobId`, the counter `attempts`, and whether `interval` is still set
(`active = false` once `clearInterval(interval)` has run). -/
structure Poller where
  jobId : String
  attempts : Nat
  active : Bool
deriving DecidableEq, Repr

/-- The constant `maxAttempts` of `pollStatus`. -/
def maxAttempts : Nat := 300

/-- Everything one interval callback reads or writes. -/
structure Env where
  app : AppState
  poller : Poller
  requests : List Request
  delayed : Nat
deriving DecidableEq, Repr

/-- The call `clearInterval(interval)`. -/
def clearInterval (e : Env) : Env :=
  { e with poller := { e.poller with active := false } }

/-- The updater passed to `setProgress` on a `'processing'` status:
`prev => Math.min(prev + 2, 95)`. -/
def progressUpdater (prev : Int) : Int :=
  min (prev + 2) 95

/-- The `catch (err)` block of the interval callback (lines 140-145). -/
def catchBlock (e : Env) (err : Option String) : Env :=
  let e := clearInterval e
  { e with app := { e.app with error := some (jsOr err "Failed to get status"),
                               processing := false, view := .upload } }

/-- The statement `if (attempts >= maxAttempts) { ... }` (lines 134-139). -/
def timeoutCheck (e : Env) : Env :=
  if e.poller.attempts ≥ maxAttempts then
    let e := clearInterval e
    { e with app := { e.app with error := some "Processing timeout",
                                 processing := false, view := .upload } }
  else e

/-- The body of the callback given to `setInterval` (lines 109-146). -/
def intervalCallback (e : Env) (r : TickResponse) : Env :=
  let e := { e with poller := { e.poller with attempts := e.poller.attempts + 1 } }
  let e := { e with requests := e.requests ++ [.getProcessingStatus e.poller.jobId] }
  match r.status with
  | .fail err => catchBlock e err
  | .ok status error =>
    if status = "completed" then
      let e := clearInterval e
      let e := { e with requests := e.requests ++ [.getResult e.poller.jobId] }
      match r.result with
      | .fail err => catchBlock e err
      | .ok data =>
        timeoutCheck
          { e with app := { e.app with results := some data, progress := 100,
                                       processing := false },
                   delayed := e.delayed + 1 }
    else if status = "error" then
      let e := clearInterval e
      timeoutCheck
        { e with app := { e.app with error := some (jsOr error "Processing failed"),
                                     processing := false, view := .upload } }
    else if status = "processing" then
      timeoutCheck { e with app := { e.app with progress := progressUpdater e.app.progress } }
    else
      timeoutCheck e

/-- One tick of the timer of a poller: the browser runs the callback only
while the interval has not been cleared. -/
def Env.tick (e : Env) (r : TickResponse) : Env :=
  if e.poller.active then intervalCallback e r else e

/-- Successive ticks of one poller. -/
def Env.runTicks (e : Env) (rs : List TickResponse) : Env :=
  rs.foldl Env.tick e

/-- The call `pollStatus(jobId)`: a new closure with `attempts = 0` and a running timer. -/
def pollStatus (jobId : String) : Poller :=
  { jobId := jobId, attempts := 0, active := true }

/-! ## The whole page -/

/-- The React state together with every poller created so far, the log of
outbound requests and the number of pending `setView('results')` timeouts. -/
structure World where
  app : AppState
  pollers : List Poller
  requests : List Request
  delayed : Nat
deriving DecidableEq, Repr

/-- The page right after mounting. -/
def World.initial : World :=
  { app := AppState.initial, pollers := [], requests := [], delayed := 0 }

/-- The view of the world one callback of poller `p` has. -/
def World.env (w : World) (p : Poller) : Env :=
  { app := w.app, poller := p, requests := w.requests, delayed := w.delayed }

/-- Write the outcome of a callback of poller number `i` back. -/
def World.put (w : World) (i : Nat) (e : Env) : World :=
  { app := e.app, pollers := w.pollers.set i e.poller, requests := e.requests,
    delayed := e.delayed }

/-- The function `startProcessing(type)` (lines 71-103), with the service's answer to the
submission request. -/
def startProcessing (w : World) (type : MediaType) (resp : SubmitResponse) : World :=
  let file := if type = .image then w.app.imageFile else w.app.videoFile
  match file with
  | none =>
    let msg := "Please select a " ++ (if type = .image then "image" else "video") ++ " file first"
    { w with app := { w.app with error := some msg } }
  | some f =>
    let app := { w.app with fileType := some type, processing := true,
                            view := .processing, progress := 0, error := none }
    let requests := w.requests ++ [if type = .image then .processFrame f else .processVideo f]
    match resp with
    | .ok newJobId =>
      { w with app := { app with jobId := some newJobId },
               pollers := w.pollers ++ [pollStatus newJobId],
               requests := requests }
    | .fail err =>
      { w with app := { app with error := some (jsOr err "Failed to start processing"),
                                 processing := false, view := .upload },
               requests := requests }

/-- One tick of the timer of poller number `i`. -/
def World.tick (w : World) (i : Nat) (r : TickResponse) : World :=
  match w.pollers[i]? with
  | none => w
  | some p => w.put i ((w.env p).tick r)

/-- Successive ticks of poller number `i`. -/
def World.runTicks (w : World) (i : Nat) (rs : List TickResponse) : World :=
  rs.foldl (fun w r => w.tick i r) w

/-- The browser fires one pending `setTimeout(() => setView('results'), 500)`. -/
def World.viewTimeout (w : World) : World :=
  match w.delayed with
  | 0 => w
  | n + 1 => { w with app := { w.app with view := .results }, delayed := n }

/-- What can happen to the page. -/
inductive Op where
  | handleImageSelect (selectedFile : Option File)
  | handleVideoSelect (selectedFile : Option File)
  | removeImageFile
  | removeVideoFile
  | startProcessing (type : MediaType) (resp : SubmitResponse)
  | tick (i : Nat) (r : TickResponse)
  | viewTimeout
  | resetView
deriving DecidableEq, Repr

/-- The effect of one operation. -/
def World.step (w : World) : Op → World
  | .handleImageSelect f => { w with app := handleImageSelect w.app f }
  | .handleVideoSelect f => { w with app := handleVideoSelect w.app f }
  | .removeImageFile => { w with app := removeImageFile w.app }
  | .removeVideoFile => { w with app := removeVideoFile w.app }
  | .startProcessing type resp => startProcessing w type resp
  | .tick i r => w.tick i r
  | .viewTimeout => w.viewTimeout
  | .resetView => { w with app := resetView w.app }

/-- The effect of a sequence of operations. -/
def World.run (w : World) (ops : List Op) : World :=
  ops.foldl World.step w

/-- A status answer that is neither `'completed'` nor `'error'` nor a
transport failure. -/
def StatusResponse.nonTerminal : StatusResponse → Bool
  | .ok status _ => status ≠ "completed" && status ≠ "error"
  | .fail _ => false

/-! ## Concrete inputs used by the examples below -/

/-- An image file. -/
def photoPng : File := { name := "photo.png", type := "image/png", size := 2000000 }

/-- A video file. -/
def clipMp4 : File := { name := "clip.mp4", type := "video/mp4", size := 5000000 }

/-- A file that is neither an image nor a video. -/
def documentPdf : File := { name := "document.pdf", type := "application/pdf", size := 1000 }

/-- The state in which `photo.png` has been accepted. -/
def photoSelected : AppState := handleImageSelect AppState.initial (some photoPng)

/-- The state in which `clip.mp4` has been accepted. -/
def clipSelected : AppState := handleVideoSelect AppState.initial (some clipMp4)

/-- The page after `photo.png` was selected, submitted, and the service
answered with the job id `abc123`. -/
def photoJob : World :=
  World.initial.run [.handleImageSelect (some photoPng), .startProcessing .image (.ok "abc123")]

/-- A result payload of an image job with a high blur level. -/
def highBlurPayload : Payload :=
  { images := some { original := some "b3JpZw==", before := none,
                     enhanced := some "ZW5o", comparison := none },
    blur_detection := some { level := some "high", laplacian_variance := some 42 },
    confidence_level := none, ocr_result := none, total_frames := none,
    processed_frames := none, sample_frames := none }

/-- The service answers `{status: 'processing'}`. -/
def processingTick : TickResponse :=
  { status := .ok "processing" none, result := .fail none }

/-- The service answers `{status: 'queued'}`. -/
def queuedTick : TickResponse :=
  { status := .ok "queued" none, result := .fail none }

/-- The service answers `{status: 'completed'}` and then returns `highBlurPayload`. -/
def completedTick : TickResponse :=
  { status := .ok "completed" none, result := .ok highBlurPayload }

/-- The service answers `{status: 'error', error: 'Model crashed'}`. -/
def errorTick : TickResponse :=
  { status := .ok "error" (some "Model crashed"), result := .fail none }

/-! ## Predicates used to state the results -/

/-- The two upload slots are not both occupied. -/
def SlotsExclusive (w : World) : Prop :=
  w.app.imageFile = none ∨ w.app.videoFile = none

/-- Whether a request is a status query. -/
def Request.isStatusQuery : Request → Bool
  | .getProcessingStatus _ => true
  | _ => false

/-- The number of status queries in a request log. -/
def statusQueries (log : List Request) : Nat :=
  log.countP Request.isStatusQuery

/-- The state of a polling session after `k` ticks: `c` status queries were
in the log when it started. -/
def SessionInv (c k : Nat) (e : Env) : Prop :=
  statusQueries e.requests = c + e.poller.attempts ∧
  e.poller.attempts ≤ maxAttempts ∧
  (e.poller.active = true → e.poller.attempts < maxAttempts ∧ e.poller.attempts = k)

/-- While poller number `i` is still running, `progress` is at most 95. -/
def ProgressBelowCeiling (i : Nat) (w : World) : Prop :=
  ∀ p, w.pollers[i]? = some p → p.active = true → w.app.progress ≤ 95

/-- The page with `photo.png` selected and nothing submitted yet. -/
def photoChosen : World :=
  World.initial.run [.handleImageSelect (some photoPng)]

/-- The operations that can occur during the job polled by poller number `i`
without ending it: everything except starting a new job, resetting the
state, and ticks of other pollers. -/
def Op.withinJob (i : Nat) : Op → Bool
  | .startProcessing _ _ => false
  | .resetView => false
  | .tick j _ => j = i
  | _ => true

/-- The HTTP call made through `apiClient` for a request: method, path below the
base URL, and for the two uploads the form field the file is appended under. -/
structure HttpCall where
  method : String
  url : String
  formField : Option String
  body : Option File
deriving DecidableEq, Repr

/-- The four functions of `services/api.js` (lines 10-36). -/
def Request.http : Request → HttpCall
  | .processFrame file =>
    { method := "POST", url := "/process/frame", formField := some "image", body := some file }
  | .processVideo file =>
    { method := "POST", url := "/process/video", formField := some "video", body := some file }
  | .getProcessingStatus jobId =>
    { method := "GET", url := "/status/" ++ jobId, formField := none, body := none }
  | .getResult jobId =>
    { method := "GET", url := "/result/" ++ jobId, formField := none, body := none }

/-- The events that belong to the session of poller number `i` alone: its
ticks and the firing of a pending delayed view switch. -/
def Op.ofSession (i : Nat) : Op → Bool
  | .tick j _ => j = i
  | .viewTimeout => true
  | _ => false

/-- The service answers `{status: 'completed'}` but the result fetch fails. -/
def fetchFailsTick : TickResponse :=
  { status := .ok "completed" none, result := .fail (some "Result not found") }

/-- The status query fails without a response (network error). -/
def networkErrorTick : TickResponse :=
  { status := .fail none, result := .fail none }

/-- The page with `clip.mp4` selected and nothing submitted yet. -/
def clipChosen : World :=
  World.initial.run [.handleVideoSelect (some clipMp4)]

/-! ## What the rendered page lets happen -/

/-- The number of interval timers that have not been cleared. -/
def activeTimers (w : World) : Nat :=
  w.pollers.countP (fun p => p.active)

/-- Whether the page as rendered in state `w` lets the operation happen: the
file inputs, the remove buttons and the process buttons are rendered only in
the upload view (lines 181-333; a remove or process button only with a file in
its slot, the process button with `disabled={processing}`), the back button
only in the results view with `results` present (lines 365-375); a timer fires
only while it is not cleared, a timeout only while it is pending. The view that
`AnimatePresence` keeps mounted while it fades out is not counted, so the page
lets happen at least what `Op.enabled` does. -/
def Op.enabled (w : World) : Op → Bool
  | .handleImageSelect _ => w.app.view = .upload
  | .handleVideoSelect _ => w.app.view = .upload
  | .removeImageFile => w.app.view = .upload && w.app.imageFile.isSome
  | .removeVideoFile => w.app.view = .upload && w.app.videoFile.isSome
  | .startProcessing type _ =>
    w.app.view = .upload && !w.app.processing &&
      (if type = .image then w.app.imageFile else w.app.videoFile).isSome
  | .tick i _ =>
    match w.pollers[i]? with
    | some p => p.active
    | none => false
  | .viewTimeout => decide (0 < w.delayed)
  | .resetView => w.app.view = .results && w.app.results.isSome

/-- The page together with a record of what has been observed: the job ids of
the pollers that have received the status `'completed'`, latest first. -/
structure Hist where
  world : World
  completedFor : List String
deriving DecidableEq, Repr

/-- Nothing has been observed when the page is mounted. -/
def Hist.initial : Hist :=
  { world := World.initial, completedFor := [] }

/-- One operation, recording a `'completed'` status received by a running poller. -/
def Hist.step (h : Hist) (op : Op) : Hist :=
  { world := h.world.step op,
    completedFor :=
      match op with
      | .tick i r =>
        match h.world.pollers[i]?, r.status with
        | some p, .ok status _ =>
          if p.active = true ∧ status = "completed" then p.jobId :: h.completedFor
          else h.completedFor
        | _, _ => h.completedFor
      | _ => h.completedFor }

/-- A sequence of operations, with the record of what was observed. -/
def Hist.run (h : Hist) (ops : List Op) : Hist :=
  ops.foldl Hist.step h

/-- The states the page can reach from its initial state through operations
it lets happen. -/
inductive Reachable : Hist → Prop where
  | initial : Reachable Hist.initial
  | step (h : Hist) (op : Op) : Reachable h → op.enabled h.world = true →
      Reachable (h.step op)

/-- The job `abc123` of `photo.png` after `n` status answers `'queued'`. -/
def queuedSession (n : Nat) : Hist :=
  { world :=
      { app := photoJob.app,
        pollers := [{ jobId := "abc123", attempts := n, active := true }],
        requests := photoJob.requests ++ List.replicate n (.getProcessingStatus "abc123"),
        delayed := 0 },
    completedFor := [] }

/-- The job `abc123` gets `'completed'` on its 300th tick; before the delayed
switch to the results view fires a second job is started; the switch fires and
the back button is pressed. -/
def raceAfterReset : Hist :=
  (queuedSession 299).run
    [.tick 0 completedTick, .startProcessing .image (.ok "job-B"), .viewTimeout, .resetView]

/-- After `raceAfterReset`, `photo.png` is selected again and a third job is
started. -/
def raceTwoTimers : Hist :=
  raceAfterReset.run [.handleImageSelect (some photoPng), .startProcessing .image (.ok "job-C")]

/-- After `raceTwoTimers`, the poller of the second job receives `'completed'`. -/
def raceStaleCompletion : Hist :=
  raceTwoTimers.step (.tick 1 completedTick)

/-- A tick on which a poller receives `'completed'` and the payload no earlier
than on its 300th attempt, so that the timeout check of the same callback runs
after the `'completed'` branch. -/
def Op.lateCompletion (w : World) : Op → Bool
  | .tick i r =>
    match w.pollers[i]?, r.status, r.result with
    | some p, .ok status _, .ok _ =>
      decide (status = "completed") && decide (maxAttempts ≤ p.attempts + 1)
    | _, _, _ => false
  | _ => false

/-- The states the page can reach through operations it lets happen, none of
which is a late completion. -/
inductive ReachableOnTime : Hist → Prop where
  | initial : ReachableOnTime Hist.initial
  | step (h : Hist) (op : Op) : ReachableOnTime h → op.enabled h.world = true →
      op.lateCompletion h.world = false → ReachableOnTime (h.step op)

/-- At most one poller runs; while one runs the view is `'processing'`, no
delayed view switch is pending and `jobId` is the poller's job; a delayed view
switch is pending only in the processing view; and `progress` is at most 95
unless it is 100 and the current job has been seen completed. -/
def SingleSession (h : Hist) : Prop :=
  (∀ (i j : Nat) (p q : Poller), h.world.pollers[i]? = some p →
    h.world.pollers[j]? = some q → p.active = true → q.active = true → i = j) ∧
  (∀ (i : Nat) (p : Poller), h.world.pollers[i]? = some p → p.active = true →
    h.world.app.view = .processing ∧ h.world.delayed = 0 ∧
    h.world.app.jobId = some p.jobId) ∧
  h.world.delayed ≤ 1 ∧
  (0 < h.world.delayed → h.world.app.view = .processing) ∧
  (h.world.app.progress ≤ 95 ∨
    (h.world.app.progress = 100 ∧
      ∃ j, h.world.app.jobId = some j ∧ j ∈ h.completedFor))

/-! ## The results view (App.jsx lines 365-566) -/

/-- The method call `s.toUpperCase()`. The embedding upper-cases the letters
`a`-`z` and leaves every other character as it is. -/
def jsToUpperCase (s : String) : String :=
  String.mk (s.data.map Char.toUpper)

/-- Whether an optional string is truthy, as in `x && (...)`: `undefined`,
`null` and `''` are falsy. -/
def jsTruthy (a : Option String) : Bool :=
  match a with
  | some s => s ≠ ""
  | none => false

/-- The template literal `data:image/png;base64,$x` with the value of `x`
spliced in; an absent value is spliced in as `undefined`. -/
def dataUrl (a : Option String) : String :=
  "data:image/png;base64," ++ a.getD "undefined"

/-- The outcome of evaluating a piece of JSX: the element, or the `TypeError`
thrown by a property access or a method call on `undefined`. -/
inductive Rendering (α : Type) where
  | ok (value : α)
  | typeError (what : String)
deriving DecidableEq, Repr

/-- The block `blur-info` (lines 392-397). -/
structure BlurInfo where
  level : String
  laplacian_variance : Option Int
deriving DecidableEq, Repr

/-- The block `confidence-info` (lines 407-417): the confidence value and,
with an `ocr_result`, the improvement line showing `ocr_result.improvement`. -/
structure ConfidenceInfo where
  value : String
  delta : Option (Option String)
deriving DecidableEq, Repr

/-- The section rendered for an image job (lines 379-452). -/
structure ImageSection where
  originalSrc : String
  blurInfo : Option BlurInfo
  enhancedSrc : String
  confidence : Option ConfidenceInfo
  comparisonSrc : Option String
  ocr : Option OcrResult
deriving DecidableEq, Repr

/-- One card of the frames grid (lines 479-554): its React `key`, the frame
number of its heading, the two image sources, the blur badge, and the parts
shown only when the frame carries them. -/
structure FrameCard where
  key : String
  frame_number : Int
  beforeSrc : String
  blurBadge : String
  enhancedSrc : String
  confidenceBadge : Option String
  comparisonSrc : Option String
  ocr : Option OcrResult
deriving DecidableEq, Repr

/-- The section rendered for a video job (lines 454-559). -/
structure VideoSection where
  total_frames : Option Int
  processed_frames : Option Int
  cards : List FrameCard
deriving DecidableEq, Repr

/-- The results view: the image section, the video section and the error
line (lines 562-564), each present only when rendered. -/
structure ResultsView where
  imageSection : Option ImageSection
  videoSection : Option VideoSection
  error : Option String
deriving DecidableEq, Repr

/-- The block guarded by `results.blur_detection &&`: it calls
`results.blur_detection.level.toUpperCase()`. -/
def renderBlurInfo (blur_detection : Option BlurDetection) : Rendering (Option BlurInfo) :=
  match blur_detection with
  | none => .ok none
  | some b =>
    match b.level with
    | none => .typeError "Cannot read properties of undefined (reading 'toUpperCase')"
    | some level =>
      .ok (some { level := jsToUpperCase level, laplacian_variance := b.laplacian_variance })

/-- The block guarded by `fileType === 'image' && results.images &&`. -/
def renderImageSection (results : Payload) (images : Images) : Rendering ImageSection :=
  match renderBlurInfo results.blur_detection with
  | .typeError what => .typeError what
  | .ok blurInfo =>
    .ok { originalSrc := dataUrl images.original,
          blurInfo := blurInfo,
          enhancedSrc := dataUrl images.enhanced,
          confidence :=
            if jsTruthy results.confidence_level then
              some { value := results.confidence_level.getD "",
                     delta := results.ocr_result.map (fun o => o.improvement) }
            else none,
          comparisonSrc :=
            if jsTruthy images.comparison then some (dataUrl images.comparison) else none,
          ocr := results.ocr_result }

/-- The callback of `results.sample_frames.map` for one frame: it reads
`frame.images.before` and calls `frame.blur_level.toUpperCase()` without a
guard. -/
def renderFrame (frame : Frame) : Rendering FrameCard :=
  match frame.images with
  | none => .typeError "Cannot read properties of undefined (reading 'before')"
  | some images =>
    match frame.blur_level with
    | none => .typeError "Cannot read properties of undefined (reading 'toUpperCase')"
    | some blur_level =>
      .ok { key := frame.frame_id,
            frame_number := frame.frame_number,
            beforeSrc := dataUrl images.before,
            blurBadge := jsToUpperCase blur_level,
            enhancedSrc := dataUrl images.enhanced,
            confidenceBadge :=
              if jsTruthy frame.confidence_level then frame.confidence_level else none,
            comparisonSrc :=
              if jsTruthy images.comparison then some (dataUrl images.comparison) else none,
            ocr := frame.ocr_result }

/-- The call `results.sample_frames.map(...)`: the cards in the order of the
frames, or the first `TypeError`. -/
def renderFrames : List Frame → Rendering (List FrameCard)
  | [] => .ok []
  | frame :: frames =>
    match renderFrame frame with
    | .typeError what => .typeError what
    | .ok card =>
      match renderFrames frames with
      | .typeError what => .typeError what
      | .ok cards => .ok (card :: cards)

/-- The block guarded by `fileType === 'video' && results.sample_frames &&`. -/
def renderVideoSection (results : Payload) (sample_frames : List Frame) :
    Rendering VideoSection :=
  match renderFrames sample_frames with
  | .typeError what => .typeError what
  | .ok cards =>
    .ok { total_frames := results.total_frames,
          processed_frames := results.processed_frames,
          cards := cards }

/-- The expression `fileType === 'image' && results.images && (...)`:
`none` when the guard fails. -/
def renderImagePart (s : AppState) (results : Payload) : Rendering (Option ImageSection) :=
  if s.fileType = some .image then
    match results.images with
    | none => .ok none
    | some images =>
      match renderImageSection results images with
      | .typeError what => .typeError what
      | .ok rendered => .ok (some rendered)
  else .ok none

/-- The expression `fileType === 'video' && results.sample_frames && (...)`:
`none` when the guard fails. -/
def renderVideoPart (s : AppState) (results : Payload) : Rendering (Option VideoSection) :=
  if s.fileType = some .video then
    match results.sample_frames with
    | none => .ok none
    | some sample_frames =>
      match renderVideoSection results sample_frames with
      | .typeError what => .typeError what
      | .ok rendered => .ok (some rendered)
  else .ok none

/-- The block guarded by `view === 'results' && results &&`: `none` when the
results view is not shown. -/
def renderResults (s : AppState) : Rendering (Option ResultsView) :=
  if s.view = .results then
    match s.results with
    | none => .ok none
    | some results =>
      match renderImagePart s results with
      | .typeError what => .typeError what
      | .ok imageSection =>
        match renderVideoPart s results with
        | .typeError what => .typeError what
        | .ok videoSection =>
          .ok (some { imageSection := imageSection, videoSection := videoSection,
                      error := if jsTruthy s.error then s.error else none })
  else .ok none

/-! ## The component `VideoUpload` (components/VideoUpload.jsx) -/

/-- The three `useState` cells of `VideoUpload` (lines 6-8) and the messages
shown with `alert`. -/
structure VideoUploadState where
  dragActive : Bool
  selectedFile : Option File
  uploading : Bool
  alerts : List String
deriving DecidableEq, Repr

/-- The initial values passed to `useState`. -/
def VideoUploadState.initial : VideoUploadState :=
  { dragActive := false, selectedFile := none, uploading := false, alerts := [] }

/-- The function `handleFile(file)` (lines 34-40). -/
def handleFile (s : VideoUploadState) (file : File) : VideoUploadState :=
  if jsStartsWith file.type "video/" then
    { s with selectedFile := some file }
  else
    { s with alerts := s.alerts ++ ["Please upload a valid video file"] }

/-- The function `handleRemoveFile()` (lines 51-54). -/
def handleRemoveFile (s : VideoUploadState) : VideoUploadState :=
  { s with selectedFile := none }

/-! ## Concrete jobs and payloads for the results view -/

/-- The page after `clip.mp4` was selected, submitted, and the service
answered with the job id `vid42`. -/
def clipJob : World :=
  World.initial.run [.handleVideoSelect (some clipMp4), .startProcessing .video (.ok "vid42")]

/-- The React state once the image job `abc123` has received `'completed'` on
its first tick, the payload `data` was fetched, and the delayed switch to the
results view has fired. -/
def imageJobDone (data : Payload) : AppState :=
  ((photoJob.tick 0 { status := .ok "completed" none, result := .ok data }).viewTimeout).app

/-- The React state once the video job `vid42` has received `'completed'` on
its first tick, the payload `data` was fetched, and the delayed switch to the
results view has fired. -/
def videoJobDone (data : Payload) : AppState :=
  ((clipJob.tick 0 { status := .ok "completed" none, result := .ok data }).viewTimeout).app

/-- A frame carrying its images and its blur level and nothing else. -/
def plainFrame (frame_id : String) (frame_number : Int) : Frame :=
  { frame_id := frame_id, frame_number := frame_number,
    images := some { original := none, before := some "YmVmb3Jl", enhanced := some "ZW5o",
                     comparison := none },
    blur_level := some "medium", confidence_level := none, ocr_result := none }

/-- A frame carrying its images but no blur level. -/
def frameWithoutBlurLevel : Frame :=
  { frame_id := "f-7", frame_number := 7,
    images := some { original := none, before := some "YmVmb3Jl", enhanced := some "ZW5o",
                     comparison := none },
    blur_level := none, confidence_level := none, ocr_result := none }

/-- A payload carrying both `images` and `sample_frames`. -/
def bothShapesPayload : Payload :=
  { images := some { original := some "b3JpZw==", before := none, enhanced := some "ZW5o",
                     comparison := none },
    blur_detection := none, confidence_level := none, ocr_result := none,
    total_frames := some 120, processed_frames := some 2,
    sample_frames := some [plainFrame "f-30" 30, plainFrame "f-10" 10] }

/-- A payload carrying neither `images` nor `sample_frames`. -/
def noShapePayload : Payload :=
  { images := none, blur_detection := none, confidence_level := some "high",
    ocr_result := none, total_frames := none, processed_frames := none,
    sample_frames := none }

/-- An image payload whose `blur_detection` object has no `level`. -/
def blurWithoutLevelPayload : Payload :=
  { images := some { original := some "b3JpZw==", before := none, enhanced := some "ZW5o",
                     comparison := none },
    blur_detection := some { level := none, laplacian_variance := some 42 },
    confidence_level := none, ocr_result := none, total_frames := none,
    processed_frames := none, sample_frames := none }

/-- A video payload one of whose frames has no `blur_level`. -/
def frameWithoutBlurLevelPayload : Payload :=
  { images := none, blur_detection := none, confidence_level := none, ocr_result := none,
    total_frames := some 120, processed_frames := some 2,
    sample_frames := some [plainFrame "f-30" 30, frameWithoutBlurLevel] }

/-- The image section of `bothShapesPayload`. -/
def bothShapesImageSection : ImageSection :=
  { originalSrc := "data:image/png;base64,b3JpZw==", blurInfo := none,
    enhancedSrc := "data:image/png;base64,ZW5o", confidence := none,
    comparisonSrc := none, ocr := none }

/-- The results view without any section and without an error line. -/
def emptyResultsView : ResultsView :=
  { imageSection := none, videoSection := none, error := none }

/-! ## Timer ticks and answers as separate events -/

/-- The interval callback up to its first `await` (lines 110-113): `attempts++`
and the status query sent by `getProcessingStatus(jobId)`. -/
def sendStatusQuery (e : Env) : Env :=
  let e := { e with poller := { e.poller with attempts := e.poller.attempts + 1 } }
  { e with requests := e.requests ++ [.getProcessingStatus e.poller.jobId] }

/-- The interval callback from the point where `await getProcessingStatus(jobId)`
settles (lines 113-145); the result fetch of the `'completed'` branch is resolved
within it. -/
def handleStatusAnswer (e : Env) (r : TickResponse) : Env :=
  match r.status with
  | .fail err => catchBlock e err
  | .ok status error =>
    if status = "completed" then
      let e := clearInterval e
      let e := { e with requests := e.requests ++ [.getResult e.poller.jobId] }
      match r.result with
      | .fail err => catchBlock e err
      | .ok data =>
        timeoutCheck
          { e with app := { e.app with results := some data, progress := 100,
                                       processing := false },
                   delayed := e.delayed + 1 }
    else if status = "error" then
      let e := clearInterval e
      timeoutCheck
        { e with app := { e.app with error := some (jsOr error "Processing failed"),
                                     processing := false, view := .upload } }
    else if status = "processing" then
      timeoutCheck { e with app := { e.app with progress := progressUpdater e.app.progress } }
    else
      timeoutCheck e

/-- One poller together with the number of its status queries that have been
sent and whose answer has not been handled yet. -/
structure AsyncSession where
  env : Env
  inFlight : Nat
deriving DecidableEq, Repr

/-- What happens to a poller when ticks and answers are separate events. -/
inductive AsyncEvent where
  | timerFires
  | answerArrives (r : TickResponse)
deriving DecidableEq, Repr

/-- The timer created by `setInterval` fires every interval while it is not
cleared and starts a new run of the callback, which sends its query and
suspends; an arriving answer resumes one suspended run. -/
def AsyncSession.step (a : AsyncSession) : AsyncEvent → AsyncSession
  | .timerFires =>
    if a.env.poller.active then
      { env := sendStatusQuery a.env, inFlight := a.inFlight + 1 }
    else a
  | .answerArrives r =>
    match a.inFlight with
    | 0 => a
    | n + 1 => { env := handleStatusAnswer a.env r, inFlight := n }

/-- A sequence of timer ticks and answers. -/
def AsyncSession.run (a : AsyncSession) (events : List AsyncEvent) : AsyncSession :=
  events.foldl AsyncSession.step a

/-- The job `abc123` right after its timer was started, no query sent yet. -/
def photoSession : AsyncSession :=
  { env := photoJob.env (pollStatus "abc123"), inFlight := 0 }

/-- The events of `n` ticks each of whose answers `r` arrives before the next
tick. -/
def promptTicks (r : TickResponse) : Nat → List AsyncEvent
  | 0 => []
  | n + 1 => .timerFires :: .answerArrives r :: promptTicks r n

/-- The job `abc123` after `n` ticks answered `'queued'`, each before the next
tick; no query is in flight. -/
def queuedAsync (n : Nat) : AsyncSession :=
  { env := (queuedSession n).world.env { jobId := "abc123", attempts := n, active := true },
    inFlight := 0 }

/-- The events of the job `abc123` whose first 299 status queries are answered
`'queued'` at once and whose 300th tick has fired, its query unanswered. -/
def lateAnswerAfter300Ticks : List AsyncEvent :=
  promptTicks queuedTick 299 ++ [.timerFires]

/-- The events of the job `abc123` whose first 299 status queries are answered
`'queued'` at once and whose 300th answer, `'queued'` as well, arrives only
after the ticks 301 and 302 have fired. -/
def lateAnswerHandled : List AsyncEvent :=
  promptTicks queuedTick 299 ++
    [.timerFires, .timerFires, .timerFires, .answerArrives queuedTick]

/-- The state of `raceAfterReset` just before the back button is pressed: the
results view is shown while the timer of `job-B` runs. -/
def raceResultsView : Hist :=
  (queuedSession 299).run
    [.tick 0 completedTick, .startProcessing .image (.ok "job-B"), .viewTimeout]

/-! ## Selection guard -/

/-- C1: for every chosen file `f`, after `handleImageSelect` the image slot
holds `f` exactly when `f.type` starts with `image/`, and after
`handleVideoSelect` the video slot holds `f` exactly when `f.type` starts with
`video/`. -/
theorem select_stores_iff_type_matches (s : AppState) (f : File) :
    ((handleImageSelect s (some f)).imageFile = some f ↔ jsStartsWith f.type "image/" = true) ∧
    ((handleVideoSelect s (some f)).videoFile = some f ↔ jsStartsWith f.type "video/" = true) := by
  constructor
  · by_cases h : jsStartsWith f.type "image/" = true <;> simp [handleImageSelect, h]
  · by_cases h : jsStartsWith f.type "video/" = true <;> simp [handleVideoSelect, h]

/-- C2, as stated, fails: with `photo.png` accepted in the image slot, offering
`document.pdf` to `handleImageSelect` is a rejection, yet the image slot no
longer holds `photo.png` afterwards; likewise for `clip.mp4` and
`handleVideoSelect`. -/
theorem reject_keeps_selection_counterexample :
    (jsStartsWith documentPdf.type "image/" = false ∧
      photoSelected.imageFile = some photoPng ∧
      (handleImageSelect photoSelected (some documentPdf)).imageFile ≠ photoSelected.imageFile) ∧
    (jsStartsWith documentPdf.type "video/" = false ∧
      clipSelected.videoFile = some clipMp4 ∧
      (handleVideoSelect clipSelected (some documentPdf)).videoFile ≠ clipSelected.videoFile) := by
  decide

/-- C2, amended: a file whose type does not start with the handler's category
is rejected by setting the handler's own slot to `null` and the error to the
handler's message; the other slot and every other state cell stay as they
were. -/
theorem reject_clears_own_slot_only (s : AppState) (f : File) :
    (jsStartsWith f.type "image/" = false →
      handleImageSelect s (some f) =
        { s with imageFile := none,
                 error := some "Please select a valid image file (PNG, JPG, JPEG)" }) ∧
    (jsStartsWith f.type "video/" = false →
      handleVideoSelect s (some f) =
        { s with videoFile := none,
                 error := some "Please select a valid video file (MP4, AVI, MOV, MKV)" }) := by
  constructor
  · intro h; simp [handleImageSelect, h]
  · intro h; simp [handleVideoSelect, h]

/-- C2, amended, at `document.pdf` offered after `photo.png` / `clip.mp4` was
accepted. -/
theorem reject_clears_own_slot_only_witness :
    handleImageSelect photoSelected (some documentPdf) =
        { photoSelected with imageFile := none,
                             error := some "Please select a valid image file (PNG, JPG, JPEG)" } ∧
    handleVideoSelect clipSelected (some documentPdf) =
        { clipSelected with videoFile := none,
                            error := some "Please select a valid video file (MP4, AVI, MOV, MKV)" } :=
  ⟨(reject_clears_own_slot_only photoSelected documentPdf).1 (by decide),
   (reject_clears_own_slot_only clipSelected documentPdf).2 (by decide)⟩

/-- C3: an accepted file is stored in the handler's own slot, the error is set
to `null` and the other category's slot is set to `null`; `view`, `fileType`,
`jobId`, `progress`, `results` and `processing` are unchanged. -/
theorem accept_stores_and_clears_other (s : AppState) (f : File) :
    (jsStartsWith f.type "image/" = true →
      handleImageSelect s (some f) =
        { s with imageFile := some f, videoFile := none, error := none }) ∧
    (jsStartsWith f.type "video/" = true →
      handleVideoSelect s (some f) =
        { s with videoFile := some f, imageFile := none, error := none }) := by
  constructor
  · intro h; simp [handleImageSelect, h]
  · intro h; simp [handleVideoSelect, h]

/-- C3 at `photo.png` offered while `clip.mp4` is selected, and at `clip.mp4`
offered while `photo.png` is selected. -/
theorem accept_stores_and_clears_other_witness :
    handleImageSelect clipSelected (some photoPng) =
        { clipSelected with imageFile := some photoPng, videoFile := none, error := none } ∧
    handleVideoSelect photoSelected (some clipMp4) =
        { photoSelected with videoFile := some clipMp4, imageFile := none, error := none } :=
  ⟨(accept_stores_and_clears_other clipSelected photoPng).1 (by decide),
   (accept_stores_and_clears_other photoSelected clipMp4).2 (by decide)⟩

/-! ## Facts about the interval callback shared by several results -/

/-- The interval callback never writes the two upload slots. -/
theorem intervalCallback_slots (e : Env) (r : TickResponse) :
    (intervalCallback e r).app.imageFile = e.app.imageFile ∧
    (intervalCallback e r).app.videoFile = e.app.videoFile := by
  obtain ⟨st, rr⟩ := r
  cases st <;> cases rr <;>
    simp only [intervalCallback, catchBlock, timeoutCheck, clearInterval] <;>
    repeat (first | split_ifs | simp)

/-- A tick of a poller never writes the two upload slots. -/
theorem Env.tick_slots (e : Env) (r : TickResponse) :
    (e.tick r).app.imageFile = e.app.imageFile ∧
    (e.tick r).app.videoFile = e.app.videoFile := by
  unfold Env.tick
  split_ifs
  · exact intervalCallback_slots e r
  · exact ⟨rfl, rfl⟩

/-- Every operation preserves the exclusion of the two slots. -/
theorem step_slotsExclusive (w : World) (op : Op) (h : SlotsExclusive w) :
    SlotsExclusive (w.step op) := by
  unfold SlotsExclusive at *
  cases op with
  | handleImageSelect f =>
    cases f with
    | none => simpa [World.step, handleImageSelect] using h
    | some f => simp only [World.step, handleImageSelect]; split_ifs <;> simp
  | handleVideoSelect f =>
    cases f with
    | none => simpa [World.step, handleVideoSelect] using h
    | some f => simp only [World.step, handleVideoSelect]; split_ifs <;> simp
  | removeImageFile => simp [World.step, removeImageFile]
  | removeVideoFile => simp [World.step, removeVideoFile]
  | startProcessing type resp =>
    simp only [World.step, startProcessing]
    split
    · simpa using h
    · cases resp <;> simpa using h
  | tick i r =>
    simp only [World.step, World.tick]
    split
    · exact h
    · rename_i p _
      have := Env.tick_slots (w.env p) r
      simp only [World.put, World.env] at this ⊢
      rw [this.1, this.2]; exact h
  | viewTimeout =>
    simp only [World.step, World.viewTimeout]
    split
    · exact h
    · simpa using h
  | resetView => simp [World.step, resetView]

/-- Sequences of operations preserve the exclusion of the two slots. -/
theorem run_slotsExclusive (ops : List Op) (w : World) (h : SlotsExclusive w) :
    SlotsExclusive (w.run ops) := by
  induction ops generalizing w with
  | nil => exact h
  | cons op ops ih => exact ih (w.step op) (step_slotsExclusive w op h)

/-- C4: starting from the initial state, after any sequence of
`handleImageSelect`, `handleVideoSelect`, `removeImageFile`, `removeVideoFile`,
`startProcessing`, poll ticks, delayed view switches and `resetView`, the image
slot and the video slot are never both non-null. -/
theorem slots_never_both_selected (ops : List Op) :
    ¬ ((World.initial.run ops).app.imageFile ≠ none ∧
       (World.initial.run ops).app.videoFile ≠ none) := by
  have h := run_slotsExclusive ops World.initial (Or.inl rfl)
  unfold SlotsExclusive at h
  tauto

/-! ## Ticks of one poller seen from the whole page -/

/-- The poller written back by `put` is the one found at its index. -/
theorem World.put_pollers (w : World) (i : Nat) (p : Poller) (e : Env)
    (hp : w.pollers[i]? = some p) : (w.put i e).pollers[i]? = some e.poller := by
  obtain ⟨hi, -⟩ := List.getElem?_eq_some.mp hp
  simp [World.put, hi]

/-- Reading back what `put` wrote. -/
theorem World.put_env (w : World) (i : Nat) (e : Env) : (w.put i e).env e.poller = e := by
  simp [World.put, World.env]

/-- Writing twice at the same index keeps the second write. -/
theorem World.put_put (w : World) (i : Nat) (e e' : Env) : (w.put i e).put i e' = w.put i e' := by
  simp [World.put, List.set_set]

/-- A tick of poller number `i` is a tick of its environment. -/
theorem World.tick_eq (w : World) (i : Nat) (p : Poller) (r : TickResponse)
    (hp : w.pollers[i]? = some p) : w.tick i r = w.put i ((w.env p).tick r) := by
  simp [World.tick, hp]

/-- Writing back the poller that is already there changes nothing. -/
theorem World.put_env_self (w : World) (i : Nat) (p : Poller)
    (hp : w.pollers[i]? = some p) : w.put i (w.env p) = w := by
  have hset : w.pollers.set i p = w.pollers := by
    apply List.ext_getElem?
    intro j
    rw [List.getElem?_set]
    split_ifs with h1 h2
    · subst h1; exact hp.symm
    · subst h1; simp [List.getElem?_eq_none (Nat.le_of_not_lt h2)]
    · rfl
  simp [World.put, World.env, hset]

/-- Successive ticks of poller number `i` are successive ticks of its environment. -/
theorem World.runTicks_eq (rs : List TickResponse) (w : World) (i : Nat) (p : Poller)
    (hp : w.pollers[i]? = some p) :
    w.runTicks i rs = w.put i ((w.env p).runTicks rs) := by
  induction rs generalizing w p with
  | nil => simp [World.runTicks, Env.runTicks, World.put_env_self w i p hp]
  | cons r rs ih =>
    have h1 : w.tick i r = w.put i ((w.env p).tick r) := World.tick_eq w i p r hp
    have h2 : (w.tick i r).pollers[i]? = some ((w.env p).tick r).poller := by
      rw [h1]; exact World.put_pollers w i p _ hp
    have := ih (w.tick i r) _ h2
    simp only [World.runTicks, Env.runTicks, List.foldl_cons] at this ⊢
    rw [this, h1, World.put_env, World.put_put]

/-! ## Terminal detection -/

/-- The interval callback on a `'completed'` status whose result fetch succeeds. -/
theorem intervalCallback_completed (e : Env) (error : Option String) (data : Payload) :
    (intervalCallback e ⟨.ok "completed" error, .ok data⟩).poller
        = { e.poller with attempts := e.poller.attempts + 1, active := false } ∧
    (intervalCallback e ⟨.ok "completed" error, .ok data⟩).requests
        = e.requests ++ [.getProcessingStatus e.poller.jobId, .getResult e.poller.jobId] ∧
    (intervalCallback e ⟨.ok "completed" error, .ok data⟩).app.results = some data ∧
    (intervalCallback e ⟨.ok "completed" error, .ok data⟩).app.progress = 100 ∧
    (intervalCallback e ⟨.ok "completed" error, .ok data⟩).app.processing = false ∧
    (intervalCallback e ⟨.ok "completed" error, .ok data⟩).delayed = e.delayed + 1 := by
  simp only [intervalCallback, timeoutCheck, clearInterval]
  split_ifs <;> simp

/-- C5: when a tick of an active poller receives the status `'completed'` and
the result fetch returns a payload, the poller's timer is cleared, the tick
issues its status query followed by exactly one `getResult` request for the
same job id, `results` holds the returned payload, `progress` is exactly 100
whatever it was before, `processing` is false, and when the delayed
`setView('results')` fires the view is `'results'`. -/
theorem completed_tick_stores_result (w : World) (i : Nat) (p : Poller)
    (error : Option String) (data : Payload)
    (hp : w.pollers[i]? = some p) (ha : p.active = true) :
    (w.tick i ⟨.ok "completed" error, .ok data⟩).pollers[i]?
        = some { p with attempts := p.attempts + 1, active := false } ∧
    (w.tick i ⟨.ok "completed" error, .ok data⟩).requests
        = w.requests ++ [.getProcessingStatus p.jobId, .getResult p.jobId] ∧
    (w.tick i ⟨.ok "completed" error, .ok data⟩).app.results = some data ∧
    (w.tick i ⟨.ok "completed" error, .ok data⟩).app.progress = 100 ∧
    (w.tick i ⟨.ok "completed" error, .ok data⟩).app.processing = false ∧
    (w.tick i ⟨.ok "completed" error, .ok data⟩).viewTimeout.app.view = .results := by
  have h := intervalCallback_completed (w.env p) error data
  have ht : w.tick i ⟨.ok "completed" error, .ok data⟩
      = w.put i (intervalCallback (w.env p) ⟨.ok "completed" error, .ok data⟩) := by
    rw [World.tick_eq w i p _ hp]; simp [Env.tick, World.env, ha]
  obtain ⟨h1, h2, h3, h4, h5, h6⟩ := h
  refine ⟨?_, ?_, ?_, ?_, ?_, ?_⟩
  · rw [ht, World.put_pollers w i p _ hp, h1]; rfl
  · rw [ht]; simpa [World.put, World.env] using h2
  · rw [ht]; simpa [World.put] using h3
  · rw [ht]; simpa [World.put] using h4
  · rw [ht]; simpa [World.put] using h5
  · rw [ht]
    have hd : (w.put i (intervalCallback (w.env p) ⟨.ok "completed" error, .ok data⟩)).delayed
        = w.delayed + 1 := by simpa [World.put, World.env] using h6
    simp only [World.viewTimeout, hd]

/-- C5 at the job `abc123` of `photo.png`, whose first status answer is
`'completed'`. -/
theorem completed_tick_stores_result_witness :
    (photoJob.tick 0 completedTick).pollers[0]?
        = some { jobId := "abc123", attempts := 1, active := false } ∧
    (photoJob.tick 0 completedTick).requests
        = photoJob.requests ++ [.getProcessingStatus "abc123", .getResult "abc123"] ∧
    (photoJob.tick 0 completedTick).app.results = some highBlurPayload ∧
    (photoJob.tick 0 completedTick).app.progress = 100 ∧
    (photoJob.tick 0 completedTick).app.processing = false ∧
    (photoJob.tick 0 completedTick).viewTimeout.app.view = .results :=
  completed_tick_stores_result photoJob 0 (pollStatus "abc123") none highBlurPayload
    (by decide) rfl

/-! ## Non-terminal ticks and the timeout -/

/-- A non-terminal tick before the limit: one more attempt, one more status
query, and of the React state only `progress` may change. -/
theorem Env.tick_nonTerminal (e : Env) (r : TickResponse)
    (ha : e.poller.active = true) (hr : r.status.nonTerminal = true)
    (hlt : e.poller.attempts + 1 < maxAttempts) :
    e.tick r =
      { e with poller := { e.poller with attempts := e.poller.attempts + 1 },
               requests := e.requests ++ [.getProcessingStatus e.poller.jobId],
               app := { e.app with progress := (e.tick r).app.progress } } := by
  obtain ⟨st, rr⟩ := r
  cases st with
  | fail err => simp [StatusResponse.nonTerminal] at hr
  | ok status err =>
    simp only [StatusResponse.nonTerminal, Bool.and_eq_true, decide_eq_true_eq] at hr
    have hnot : ¬ (e.poller.attempts + 1 ≥ maxAttempts) := Nat.not_le.mpr hlt
    by_cases hs : status = "processing" <;>
      simp [Env.tick, ha, intervalCallback, hr.1, hr.2, hs, timeoutCheck, hnot]

/-- A non-terminal tick that reaches the limit: the timer is cleared and the
timeout is reported. -/
theorem Env.tick_nonTerminal_limit (e : Env) (r : TickResponse)
    (ha : e.poller.active = true) (hr : r.status.nonTerminal = true)
    (hge : maxAttempts ≤ e.poller.attempts + 1) :
    e.tick r =
      { e with poller := { e.poller with attempts := e.poller.attempts + 1, active := false },
               requests := e.requests ++ [.getProcessingStatus e.poller.jobId],
               app := { e.app with progress := (e.tick r).app.progress,
                                   error := some "Processing timeout",
                                   processing := false, view := .upload } } := by
  obtain ⟨st, rr⟩ := r
  cases st with
  | fail err => simp [StatusResponse.nonTerminal] at hr
  | ok status err =>
    simp only [StatusResponse.nonTerminal, Bool.and_eq_true, decide_eq_true_eq] at hr
    by_cases hs : status = "processing" <;>
      simp [Env.tick, ha, intervalCallback, hr.1, hr.2, hs, timeoutCheck, clearInterval, hge]

/-- Non-terminal ticks that stay below the limit: the attempts and the status
queries are counted, the timer keeps running, and of the React state only
`progress` may change. -/
theorem Env.runTicks_nonTerminal (rs : List TickResponse) (e : Env)
    (ha : e.poller.active = true) (hr : ∀ r ∈ rs, r.status.nonTerminal = true)
    (hlt : e.poller.attempts + rs.length < maxAttempts) :
    e.runTicks rs =
      { e with poller := { e.poller with attempts := e.poller.attempts + rs.length },
               requests := e.requests ++
                 List.replicate rs.length (.getProcessingStatus e.poller.jobId),
               app := { e.app with progress := (e.runTicks rs).app.progress } } := by
  induction rs generalizing e with
  | nil => simp [Env.runTicks]
  | cons r rs ih =>
    have hr1 : r.status.nonTerminal = true := hr r (List.mem_cons_self r rs)
    have hlen : e.poller.attempts + 1 + rs.length < maxAttempts := by
      simp only [List.length_cons] at hlt; omega
    have h1 := Env.tick_nonTerminal e r ha hr1 (by omega)
    have hp : (e.tick r).poller = { e.poller with attempts := e.poller.attempts + 1 } := by
      rw [h1]
    have ha1 : (e.tick r).poller.active = true := by rw [hp]; exact ha
    have h2 := ih (e.tick r) ha1 (fun x hx => hr x (List.mem_cons_of_mem r hx))
      (by rw [hp]; exact hlen)
    have hrun : e.runTicks (r :: rs) = (e.tick r).runTicks rs := rfl
    rw [hrun, h2, hp]
    have hq : (e.tick r).requests = e.requests ++ [.getProcessingStatus e.poller.jobId] := by
      rw [h1]
    have happ : (e.tick r).app = { e.app with progress := (e.tick r).app.progress } := by
      rw [h1]
    have hd : (e.tick r).delayed = e.delayed := by rw [h1]
    rw [hq, hd, happ]
    simp [List.replicate_succ, Nat.add_assoc, Nat.add_comm 1]

/-- Ticks after a sequence of ticks. -/
theorem Env.runTicks_append (e : Env) (rs ss : List TickResponse) :
    e.runTicks (rs ++ ss) = (e.runTicks rs).runTicks ss := by
  simp [Env.runTicks, List.foldl_append]

/-- Non-terminal ticks the last of which reaches the limit: the timer is
cleared by that tick and the timeout is reported. -/
theorem Env.runTicks_nonTerminal_limit (rs : List TickResponse) (e : Env)
    (ha : e.poller.active = true) (hr : ∀ r ∈ rs, r.status.nonTerminal = true)
    (hne : rs ≠ []) (hlen : e.poller.attempts + rs.length = maxAttempts) :
    e.runTicks rs =
      { e with poller := { e.poller with attempts := maxAttempts, active := false },
               requests := e.requests ++
                 List.replicate rs.length (.getProcessingStatus e.poller.jobId),
               app := { e.app with progress := (e.runTicks rs).app.progress,
                                   error := some "Processing timeout",
                                   processing := false, view := .upload } } := by
  obtain ⟨init, last, rfl⟩ : ∃ init last, rs = init ++ [last] :=
    ⟨rs.dropLast, rs.getLast hne, (List.dropLast_append_getLast hne).symm⟩
  have hlen1 : e.poller.attempts + init.length + 1 = maxAttempts := by
    simpa [Nat.add_assoc] using hlen
  have h1 := Env.runTicks_nonTerminal init e ha
    (fun x hx => hr x (List.mem_append_left _ hx)) (by omega)
  have hp : (e.runTicks init).poller
      = { e.poller with attempts := e.poller.attempts + init.length } := by rw [h1]
  have hq : (e.runTicks init).requests
      = e.requests ++ List.replicate init.length (.getProcessingStatus e.poller.jobId) := by
    rw [h1]
  have happ : (e.runTicks init).app
      = { e.app with progress := (e.runTicks init).app.progress } := by rw [h1]
  have hd : (e.runTicks init).delayed = e.delayed := by rw [h1]
  have h2 := Env.tick_nonTerminal_limit (e.runTicks init) last (by rw [hp]; exact ha)
    (hr last (List.mem_append_right _ (List.mem_singleton_self last)))
    (by rw [hp]; exact Nat.le_of_eq hlen1.symm)
  have hrun : e.runTicks (init ++ [last]) = (e.runTicks init).tick last := by
    rw [Env.runTicks_append]; rfl
  rw [hrun, h2, hp, hq, hd, happ]
  simp [List.replicate_succ', hlen1]

/-- When every answer is handled before the next tick: a poller that has made
no attempt yet and whose every status query is answered with a non-terminal
status has, after exactly 300 ticks, cleared its timer, set `error` to
`'Processing timeout'`, `processing` to false and `view` to `'upload'`, and
issued exactly 300 status queries and no other request; after fewer than 300
such ticks the timer is still running, `error`, `view` and `processing` are
what they were when the session started, and one status query per tick has
been issued. -/
theorem timeout_after_300_nonterminal_ticks (w : World) (i : Nat) (p : Poller)
    (rs : List TickResponse) (hp : w.pollers[i]? = some p) (h0 : p.attempts = 0)
    (ha : p.active = true) (hr : ∀ r ∈ rs, r.status.nonTerminal = true) :
    (rs.length = 300 →
      (w.runTicks i rs).pollers[i]? = some { p with attempts := 300, active := false } ∧
      (w.runTicks i rs).app.error = some "Processing timeout" ∧
      (w.runTicks i rs).app.processing = false ∧
      (w.runTicks i rs).app.view = .upload ∧
      (w.runTicks i rs).requests
        = w.requests ++ List.replicate 300 (.getProcessingStatus p.jobId)) ∧
    (rs.length < 300 →
      (w.runTicks i rs).pollers[i]? = some { p with attempts := rs.length, active := true } ∧
      (w.runTicks i rs).app.error = w.app.error ∧
      (w.runTicks i rs).app.processing = w.app.processing ∧
      (w.runTicks i rs).app.view = w.app.view ∧
      (w.runTicks i rs).requests
        = w.requests ++ List.replicate rs.length (.getProcessingStatus p.jobId)) := by
  have hrun := World.runTicks_eq rs w i p hp
  constructor
  · intro hlen
    have hne : rs ≠ [] := by
      intro h; rw [h] at hlen; simp at hlen
    have h := Env.runTicks_nonTerminal_limit rs (w.env p) ha hr hne
      (by simp [World.env, h0, hlen, maxAttempts])
    refine ⟨?_, ?_, ?_, ?_, ?_⟩
    · rw [hrun, World.put_pollers w i p _ hp, h]; simp [World.env, maxAttempts]
    · rw [hrun]; simp only [World.put]; rw [h]
    · rw [hrun]; simp only [World.put]; rw [h]
    · rw [hrun]; simp only [World.put]; rw [h]
    · rw [hrun]; simp only [World.put]; rw [h, hlen]; rfl
  · intro hlen
    have h := Env.runTicks_nonTerminal rs (w.env p) ha hr
      (by simp [World.env, h0, maxAttempts]; exact hlen)
    refine ⟨?_, ?_, ?_, ?_, ?_⟩
    · rw [hrun, World.put_pollers w i p _ hp, h]
      obtain ⟨j, a, b⟩ := p
      simp only [World.env] at h0 ha ⊢
      subst h0; subst ha; simp
    · rw [hrun]; simp only [World.put]; rw [h]; rfl
    · rw [hrun]; simp only [World.put]; rw [h]; rfl
    · rw [hrun]; simp only [World.put]; rw [h]; rfl
    · rw [hrun]; simp only [World.put]; rw [h]; simp [World.env]

/-! ## The status `'error'` -/

/-- An `'error'` status on a tick before the limit: the timer is cleared, no
result is fetched, and the error is the server's message or the generic one. -/
theorem Env.tick_error_before_limit (e : Env) (msg : Option String) (rr : ResultResponse)
    (ha : e.poller.active = true) (hlt : e.poller.attempts + 1 < maxAttempts) :
    e.tick ⟨.ok "error" msg, rr⟩ =
      { e with poller := { e.poller with attempts := e.poller.attempts + 1, active := false },
               requests := e.requests ++ [.getProcessingStatus e.poller.jobId],
               app := { e.app with error := some (jsOr msg "Processing failed"),
                                   processing := false, view := .upload } } := by
  have hnot : ¬ (e.poller.attempts + 1 ≥ maxAttempts) := Nat.not_le.mpr hlt
  simp [Env.tick, ha, intervalCallback, timeoutCheck, clearInterval, hnot]

/-- An `'error'` status on the tick that reaches the limit: the message set by
the `'error'` branch is overwritten by the timeout check that follows it. -/
theorem Env.tick_error_at_limit (e : Env) (msg : Option String) (rr : ResultResponse)
    (ha : e.poller.active = true) (hge : maxAttempts ≤ e.poller.attempts + 1) :
    (e.tick ⟨.ok "error" msg, rr⟩).app.error = some "Processing timeout" := by
  simp [Env.tick, ha, intervalCallback, timeoutCheck, clearInterval, hge]

/-- C6 at its failing input: the job `abc123` receives 299 answers `'queued'`
and then, on tick 300, the status `'error'` with the message `'Model crashed'`;
the error shown afterwards is `'Processing timeout'`, not the server's
message. -/
theorem error_status_on_tick_300_reports_timeout :
    errorTick.status = .ok "error" (some "Model crashed") ∧
    ((photoJob.runTicks 0 (List.replicate 299 queuedTick)).tick 0 errorTick).app.error
      = some "Processing timeout" ∧
    ((photoJob.runTicks 0 (List.replicate 299 queuedTick)).tick 0 errorTick).app.error
      ≠ some "Model crashed" := by
  have hp0 : photoJob.pollers[0]? = some (pollStatus "abc123") := by decide
  have hrun := World.runTicks_eq (List.replicate 299 queuedTick) photoJob 0 _ hp0
  have hE := Env.runTicks_nonTerminal (List.replicate 299 queuedTick)
    (photoJob.env (pollStatus "abc123")) rfl
    (fun r h => by rw [List.eq_of_mem_replicate h]; decide)
    (by rw [List.length_replicate]; decide)
  have hpoller : ((photoJob.env (pollStatus "abc123")).runTicks
      (List.replicate 299 queuedTick)).poller
      = { jobId := "abc123", attempts := 299, active := true } := by
    rw [hE, List.length_replicate]; rfl
  have hp1 : (photoJob.runTicks 0 (List.replicate 299 queuedTick)).pollers[0]?
      = some { jobId := "abc123", attempts := 299, active := true } := by
    rw [hrun, World.put_pollers photoJob 0 _ _ hp0, hpoller]
  have key : ((photoJob.runTicks 0 (List.replicate 299 queuedTick)).tick 0 errorTick).app.error
      = some "Processing timeout" := by
    rw [World.tick_eq _ 0 _ errorTick hp1]
    exact Env.tick_error_at_limit _ (some "Model crashed") (.fail none) rfl (by decide)
  refine ⟨rfl, key, ?_⟩
  rw [key]; decide

/-! ## The ceiling of 300 ticks -/

/-- Appending requests to a log adds their status queries. -/
theorem statusQueries_append (a b : List Request) :
    statusQueries (a ++ b) = statusQueries a + statusQueries b := by
  simp [statusQueries, List.countP_append]

/-- Every run of the interval callback counts one attempt, issues exactly one
status query, and leaves the timer running only below the limit. -/
theorem intervalCallback_counts (e : Env) (r : TickResponse) :
    (intervalCallback e r).poller.attempts = e.poller.attempts + 1 ∧
    statusQueries (intervalCallback e r).requests = statusQueries e.requests + 1 ∧
    ((intervalCallback e r).poller.active = true → e.poller.attempts + 1 < maxAttempts) := by
  obtain ⟨st, rr⟩ := r
  cases st with
  | fail err =>
    simp [intervalCallback, catchBlock, clearInterval, statusQueries_append, statusQueries,
      Request.isStatusQuery]
  | ok status err =>
    cases rr <;>
      simp only [intervalCallback, catchBlock, timeoutCheck, clearInterval] <;>
      split_ifs <;>
      simp_all [statusQueries_append, statusQueries, Request.isStatusQuery]

/-- A tick preserves the session invariant. -/
theorem Env.tick_sessionInv (c k : Nat) (e : Env) (r : TickResponse)
    (h : SessionInv c k e) : SessionInv c (k + 1) (e.tick r) := by
  obtain ⟨h1, h2, h3⟩ := h
  unfold Env.tick
  by_cases ha : e.poller.active = true
  · obtain ⟨h4, h5⟩ := h3 ha
    obtain ⟨g1, g2, g3⟩ := intervalCallback_counts e r
    rw [if_pos ha]
    refine ⟨by omega, by omega, fun hact => ⟨?_, by omega⟩⟩
    have := g3 hact
    omega
  · rw [if_neg ha]
    exact ⟨h1, h2, fun hact => absurd hact ha⟩

/-- Successive ticks preserve the session invariant. -/
theorem Env.runTicks_sessionInv (rs : List TickResponse) (c k : Nat) (e : Env)
    (h : SessionInv c k e) : SessionInv c (k + rs.length) (e.runTicks rs) := by
  induction rs generalizing k e with
  | nil => simpa [Env.runTicks] using h
  | cons r rs ih =>
    have := ih (k + 1) (e.tick r) (Env.tick_sessionInv c k e r h)
    have hlen : k + (r :: rs).length = k + 1 + rs.length := by
      simp only [List.length_cons]; omega
    rw [hlen]
    exact this

/-- When every answer is handled before the next tick: whatever the service
answers (any statuses, transport failures or failed result fetches, in any
order and number), a polling session that starts with `attempts = 0` issues at
most 300 status queries, and once 300 ticks have elapsed its timer is
cleared. -/
theorem polling_session_bounded (w : World) (i : Nat) (p : Poller) (rs : List TickResponse)
    (hp : w.pollers[i]? = some p) (h0 : p.attempts = 0) :
    statusQueries (w.runTicks i rs).requests ≤ statusQueries w.requests + 300 ∧
    (300 ≤ rs.length →
      ∃ q, (w.runTicks i rs).pollers[i]? = some q ∧ q.active = false) := by
  have hrun := World.runTicks_eq rs w i p hp
  have hinit : SessionInv (statusQueries w.requests) 0 (w.env p) := by
    refine ⟨by simp [World.env, h0], by simp [World.env, h0], fun _ => ?_⟩
    simp [World.env, h0, maxAttempts]
  obtain ⟨h1, h2, h3⟩ := Env.runTicks_sessionInv rs _ 0 _ hinit
  constructor
  · rw [hrun]
    simp only [World.put]
    have hm : maxAttempts = 300 := rfl
    omega
  · intro hlen
    refine ⟨((w.env p).runTicks rs).poller, ?_, ?_⟩
    · rw [hrun]; exact World.put_pollers w i p _ hp
    · by_contra hact
      have hact' : ((w.env p).runTicks rs).poller.active = true := by
        simpa using hact
      obtain ⟨h4, h5⟩ := h3 hact'
      have hm : maxAttempts = 300 := rfl
      omega

/-! ## Progress -/

/-- C9: on a `'processing'` status the tick of an active poller replaces
`progress` by `min (progress + 2) 95`; this value never exceeds 95, and it is at
least the current value whenever the current value is at most 95. -/
theorem progress_estimator_bounds (e : Env) (error : Option String) (rr : ResultResponse)
    (prev : Int) (ha : e.poller.active = true) :
    (e.tick ⟨.ok "processing" error, rr⟩).app.progress = min (e.app.progress + 2) 95 ∧
    progressUpdater prev = min (prev + 2) 95 ∧
    progressUpdater prev ≤ 95 ∧
    (prev ≤ 95 → prev ≤ progressUpdater prev) := by
  refine ⟨?_, rfl, ?_, ?_⟩
  · simp only [Env.tick, ha, intervalCallback, timeoutCheck, clearInterval, progressUpdater]
    split_ifs <;> simp_all
  · unfold progressUpdater; omega
  · intro h; unfold progressUpdater; omega

/-- C9 at the first tick of the job `abc123` and at the current value 94. -/
theorem progress_estimator_bounds_witness :
    ((photoJob.env (pollStatus "abc123")).tick ⟨.ok "processing" none, .fail none⟩).app.progress
        = min ((photoJob.env (pollStatus "abc123")).app.progress + 2) 95 ∧
    progressUpdater 94 = min (94 + 2) 95 ∧
    progressUpdater 94 ≤ 95 ∧
    (94 : Int) ≤ progressUpdater 94 :=
  ⟨(progress_estimator_bounds (photoJob.env (pollStatus "abc123")) none (.fail none) 94 rfl).1,
   (progress_estimator_bounds (photoJob.env (pollStatus "abc123")) none (.fail none) 94 rfl).2.1,
   (progress_estimator_bounds (photoJob.env (pollStatus "abc123")) none (.fail none) 94 rfl).2.2.1,
   (progress_estimator_bounds (photoJob.env (pollStatus "abc123")) none (.fail none) 94 rfl).2.2.2
     (by decide)⟩

/-- A tick never lowers `progress` as long as `progress` is at most 95 while
the timer runs, and it keeps it so. -/
theorem Env.tick_progress (e : Env) (r : TickResponse)
    (h : e.poller.active = true → e.app.progress ≤ 95) :
    e.app.progress ≤ (e.tick r).app.progress ∧
    ((e.tick r).poller.active = true → (e.tick r).app.progress ≤ 95) := by
  unfold Env.tick
  by_cases ha : e.poller.active = true
  · have h95 := h ha
    rw [if_pos ha]
    obtain ⟨st, rr⟩ := r
    cases st with
    | fail err => simp [intervalCallback, catchBlock, clearInterval]
    | ok status err =>
      cases rr <;>
        simp only [intervalCallback, catchBlock, timeoutCheck, clearInterval,
          progressUpdater] <;>
        split_ifs <;>
        simp_all <;>
        omega
  · rw [if_neg ha]
    exact ⟨le_refl _, fun hact => absurd hact ha⟩

/-- An operation within the job never lowers `progress` and keeps the bound of
95 while the timer runs. -/
theorem step_progress (i : Nat) (w : World) (op : Op) (h : ProgressBelowCeiling i w)
    (hop : op.withinJob i = true) :
    w.app.progress ≤ (w.step op).app.progress ∧ ProgressBelowCeiling i (w.step op) := by
  cases op with
  | handleImageSelect f =>
    cases f with
    | none => exact ⟨le_refl _, h⟩
    | some f =>
      have : (handleImageSelect w.app (some f)).progress = w.app.progress := by
        simp only [handleImageSelect]; split_ifs <;> rfl
      exact ⟨by simp [World.step, this], fun p hp ha => by
        simpa [World.step, this] using h p hp ha⟩
  | handleVideoSelect f =>
    cases f with
    | none => exact ⟨le_refl _, h⟩
    | some f =>
      have : (handleVideoSelect w.app (some f)).progress = w.app.progress := by
        simp only [handleVideoSelect]; split_ifs <;> rfl
      exact ⟨by simp [World.step, this], fun p hp ha => by
        simpa [World.step, this] using h p hp ha⟩
  | removeImageFile => exact ⟨le_refl _, h⟩
  | removeVideoFile => exact ⟨le_refl _, h⟩
  | startProcessing type resp => simp [Op.withinJob] at hop
  | tick j r =>
    have hj : j = i := by simpa [Op.withinJob] using hop
    subst hj
    cases hq : w.pollers[j]? with
    | none =>
      have : w.step (.tick j r) = w := by simp [World.step, World.tick, hq]
      rw [this]; exact ⟨le_refl _, h⟩
    | some q =>
      have hstep : w.step (.tick j r) = w.put j ((w.env q).tick r) := World.tick_eq w j q r hq
      have ht := Env.tick_progress (w.env q) r (fun ha => h q hq ha)
      rw [hstep]
      refine ⟨ht.1, fun p hp ha => ?_⟩
      rw [World.put_pollers w j q _ hq] at hp
      have hpe : ((w.env q).tick r).poller = p := Option.some.inj hp
      exact ht.2 (by rw [hpe]; exact ha)
  | viewTimeout =>
    cases hd : w.delayed with
    | zero =>
      have : w.step .viewTimeout = w := by simp [World.step, World.viewTimeout, hd]
      rw [this]; exact ⟨le_refl _, h⟩
    | succ n =>
      have : w.step .viewTimeout
          = { w with app := { w.app with view := .results }, delayed := n } := by
        simp [World.step, World.viewTimeout, hd]
      rw [this]; exact ⟨le_refl _, h⟩
  | resetView => simp [Op.withinJob] at hop

/-- Operations within the job keep the bound of 95 while the timer runs. -/
theorem run_progressBelowCeiling (i : Nat) (ops : List Op) (w : World)
    (h : ProgressBelowCeiling i w) (hops : ∀ o ∈ ops, o.withinJob i = true) :
    ProgressBelowCeiling i (w.run ops) := by
  induction ops generalizing w with
  | nil => exact h
  | cons o ops ih =>
    exact ih (w.step o) (step_progress i w o h (hops o (List.mem_cons_self o ops))).2
      (fun x hx => hops x (List.mem_cons_of_mem o hx))

/-- When every answer is handled before the next tick and no other poller
ticks: `startProcessing` with a selected file and a successful submission
creates the job's poller and sets `progress` to 0; from then on, after any
sequence of ticks of the job's poller with arbitrary answers, selections,
removals and delayed view switches, the next such operation never lowers
`progress`. -/
theorem progress_nondecreasing_within_job (w : World) (type : MediaType) (f : File)
    (job_id : String) (ops : List Op) (op : Op)
    (hf : (if type = .image then w.app.imageFile else w.app.videoFile) = some f)
    (hops : ∀ o ∈ ops, o.withinJob w.pollers.length = true)
    (hop : op.withinJob w.pollers.length = true) :
    (startProcessing w type (.ok job_id)).pollers[w.pollers.length]?
        = some (pollStatus job_id) ∧
    (startProcessing w type (.ok job_id)).app.progress = 0 ∧
    ((startProcessing w type (.ok job_id)).run ops).app.progress
        ≤ (((startProcessing w type (.ok job_id)).run ops).step op).app.progress := by
  have hstart : startProcessing w type (.ok job_id) =
      { w with app := { w.app with fileType := some type, processing := true,
                                   view := .processing, progress := 0, error := none,
                                   jobId := some job_id },
               pollers := w.pollers ++ [pollStatus job_id],
               requests := w.requests ++
                 [if type = .image then .processFrame f else .processVideo f] } := by
    simp only [startProcessing, hf]
  have h0 : ProgressBelowCeiling w.pollers.length (startProcessing w type (.ok job_id)) := by
    intro p _ _
    rw [hstart]
    show (0 : Int) ≤ 95
    decide
  refine ⟨?_, ?_, ?_⟩
  · rw [hstart]; exact List.getElem?_concat_length w.pollers (pollStatus job_id)
  · rw [hstart]
  · exact (step_progress _ _ op (run_progressBelowCeiling _ ops _ h0 hops) hop).1

/-! ## Non-terminal answers other than `'processing'` -/

/-- C12, as stated, fails: `'queued'` is a non-terminal status, yet a tick that
receives it leaves `progress` at 0 instead of advancing it to `min (0 + 2) 95`. -/
theorem queued_tick_advances_counterexample :
    queuedTick.status.nonTerminal = true ∧
    photoJob.app.progress = 0 ∧
    (photoJob.tick 0 queuedTick).app.progress = 0 ∧
    (photoJob.tick 0 queuedTick).app.progress ≠ min (photoJob.app.progress + 2) 95 := by
  decide

/-- C12, amended: on a tick before the 300th, a non-terminal status leaves the
timer running; `progress` becomes `min (prev + 2) 95` when the status is
`'processing'` and is left unchanged for `'queued'` and every other
non-terminal status. -/
theorem nonterminal_tick_progress (w : World) (i : Nat) (p : Poller) (status : String)
    (error : Option String) (rr : ResultResponse)
    (hp : w.pollers[i]? = some p) (ha : p.active = true)
    (hlt : p.attempts + 1 < maxAttempts)
    (hnt : (StatusResponse.ok status error).nonTerminal = true) :
    (w.tick i ⟨.ok status error, rr⟩).pollers[i]?
        = some { p with attempts := p.attempts + 1, active := true } ∧
    (status = "processing" →
      (w.tick i ⟨.ok status error, rr⟩).app.progress = min (w.app.progress + 2) 95) ∧
    (status ≠ "processing" →
      (w.tick i ⟨.ok status error, rr⟩).app.progress = w.app.progress) := by
  have ht := World.tick_eq w i p ⟨.ok status error, rr⟩ hp
  have he := Env.tick_nonTerminal (w.env p) ⟨.ok status error, rr⟩ ha hnt hlt
  simp only [StatusResponse.nonTerminal, Bool.and_eq_true, decide_eq_true_eq] at hnt
  have hnot : ¬ (p.attempts + 1 ≥ maxAttempts) := Nat.not_le.mpr hlt
  refine ⟨?_, ?_, ?_⟩
  · rw [ht, World.put_pollers w i p _ hp, he]
    obtain ⟨j, a, b⟩ := p
    simp only [World.env] at ha ⊢
    subst ha; rfl
  · intro hs
    rw [ht]
    simp [World.put, World.env, Env.tick, ha, intervalCallback, hnt.1, hnt.2, hs,
      timeoutCheck, hnot, progressUpdater]
  · intro hs
    rw [ht]
    simp [World.put, World.env, Env.tick, ha, intervalCallback, hnt.1, hnt.2, hs,
      timeoutCheck, hnot]

/-- C12, amended, at the first tick of the job `abc123` answered `'processing'`
and answered `'queued'`. -/
theorem nonterminal_tick_progress_witness :
    (photoJob.tick 0 processingTick).app.progress = min (photoJob.app.progress + 2) 95 ∧
    (photoJob.tick 0 queuedTick).app.progress = photoJob.app.progress ∧
    (photoJob.tick 0 queuedTick).pollers[0]?
        = some { jobId := "abc123", attempts := 1, active := true } :=
  ⟨(nonterminal_tick_progress photoJob 0 (pollStatus "abc123") "processing" none (.fail none)
      (by decide) rfl (by decide) (by decide)).2.1 rfl,
   (nonterminal_tick_progress photoJob 0 (pollStatus "abc123") "queued" none (.fail none)
      (by decide) rfl (by decide) (by decide)).2.2 (by decide),
   (nonterminal_tick_progress photoJob 0 (pollStatus "abc123") "queued" none (.fail none)
      (by decide) rfl (by decide) (by decide)).1⟩

/-! ## Submission -/

/-- The fallback of `||` is used exactly for an absent or empty message, and
the result is never empty when the fallback is not. -/
theorem jsOr_spec (a : Option String) (b : String) :
    (a = none → jsOr a b = b) ∧
    (∀ m, a = some m → m ≠ "" → jsOr a b = m) ∧
    (b ≠ "" → jsOr a b ≠ "") := by
  refine ⟨?_, ?_, ?_⟩
  · intro h; subst h; rfl
  · intro m h hm; subst h; simp [jsOr, hm]
  · intro hb
    cases a with
    | none => simpa [jsOr] using hb
    | some m =>
      by_cases hm : m = ""
      · simpa [jsOr, hm] using hb
      · simp [jsOr, hm]

/-- C15: when the submission request of `startProcessing` fails, the view is
`'upload'`, `processing` is false, and `error` is non-empty: it is the
server-supplied message when there is a non-empty one and otherwise
`'Failed to start processing'`; the stored job id is the one from before the
call, and no poller is created. -/
theorem submission_failure_returns_to_upload (w : World) (type : MediaType) (f : File)
    (msg : Option String)
    (hf : (if type = .image then w.app.imageFile else w.app.videoFile) = some f) :
    (startProcessing w type (.fail msg)).app.view = .upload ∧
    (startProcessing w type (.fail msg)).app.processing = false ∧
    (startProcessing w type (.fail msg)).app.error
        = some (jsOr msg "Failed to start processing") ∧
    (startProcessing w type (.fail msg)).app.error ≠ some "" ∧
    (startProcessing w type (.fail msg)).app.error ≠ none ∧
    (msg = none →
      (startProcessing w type (.fail msg)).app.error = some "Failed to start processing") ∧
    (∀ m, msg = some m → m ≠ "" →
      (startProcessing w type (.fail msg)).app.error = some m) ∧
    (startProcessing w type (.fail msg)).app.jobId = w.app.jobId ∧
    (startProcessing w type (.fail msg)).pollers = w.pollers := by
  have hstart : startProcessing w type (.fail msg) =
      { w with app := { w.app with fileType := some type, progress := 0,
                                   error := some (jsOr msg "Failed to start processing"),
                                   processing := false, view := .upload },
               requests := w.requests ++
                 [if type = .image then .processFrame f else .processVideo f] } := by
    simp only [startProcessing, hf]
  obtain ⟨h1, h2, h3⟩ := jsOr_spec msg "Failed to start processing"
  rw [hstart]
  refine ⟨rfl, rfl, rfl, ?_, ?_, ?_, ?_, rfl, rfl⟩
  · intro h
    exact h3 (by decide) (Option.some.inj h)
  · simp
  · intro h; show some (jsOr msg "Failed to start processing") = _; rw [h1 h]
  · intro m h hm; show some (jsOr msg "Failed to start processing") = _; rw [h2 m h hm]

/-- C15 at `clip.mp4` whose submission fails with a network error. -/
theorem submission_failure_returns_to_upload_witness :
    (startProcessing clipChosen .video (.fail none)).app.view = .upload ∧
    (startProcessing clipChosen .video (.fail none)).app.processing = false ∧
    (startProcessing clipChosen .video (.fail none)).app.error
        = some "Failed to start processing" ∧
    (startProcessing clipChosen .video (.fail none)).app.jobId = none ∧
    (startProcessing clipChosen .video (.fail none)).pollers = [] :=
  ⟨(submission_failure_returns_to_upload clipChosen .video clipMp4 none (by decide)).1,
   (submission_failure_returns_to_upload clipChosen .video clipMp4 none (by decide)).2.1,
   (submission_failure_returns_to_upload clipChosen .video clipMp4 none (by decide)).2.2.2.2.2.1
     rfl,
   (submission_failure_returns_to_upload clipChosen .video clipMp4 none
     (by decide)).2.2.2.2.2.2.2.1,
   (submission_failure_returns_to_upload clipChosen .video clipMp4 none
     (by decide)).2.2.2.2.2.2.2.2⟩

/-- C16: with a file in the slot named by `type`, `startProcessing` appends
exactly one request to the log, whatever the service answers: for `'image'` the
POST of the image slot's file to `/process/frame` under the form field `image`,
for `'video'` the POST of the video slot's file to `/process/video` under the
form field `video`; with no file in that slot the log and the view are
unchanged. -/
theorem startProcessing_issues_one_request (w : World) (type : MediaType)
    (resp : SubmitResponse) :
    (∀ f, w.app.imageFile = some f →
      (startProcessing w .image resp).requests = w.requests ++ [.processFrame f] ∧
      (Request.processFrame f).http =
        { method := "POST", url := "/process/frame", formField := some "image",
          body := some f }) ∧
    (∀ f, w.app.videoFile = some f →
      (startProcessing w .video resp).requests = w.requests ++ [.processVideo f] ∧
      (Request.processVideo f).http =
        { method := "POST", url := "/process/video", formField := some "video",
          body := some f }) ∧
    ((if type = .image then w.app.imageFile else w.app.videoFile) = none →
      (startProcessing w type resp).requests = w.requests ∧
      (startProcessing w type resp).app.view = w.app.view) := by
  refine ⟨?_, ?_, ?_⟩
  · intro f hf
    refine ⟨?_, rfl⟩
    cases resp <;> simp [startProcessing, hf]
  · intro f hf
    refine ⟨?_, rfl⟩
    cases resp <;> simp [startProcessing, hf]
  · intro hf
    simp [startProcessing, hf]

/-- C16 at `photo.png` submitted as an image, `clip.mp4` submitted as a video,
and a video submission with only `photo.png` selected. -/
theorem startProcessing_issues_one_request_witness :
    (startProcessing photoChosen .image (.ok "abc123")).requests = [.processFrame photoPng] ∧
    (startProcessing clipChosen .video (.ok "abc123")).requests = [.processVideo clipMp4] ∧
    (startProcessing photoChosen .video (.ok "abc123")).requests = [] ∧
    (startProcessing photoChosen .video (.ok "abc123")).app.view = .upload :=
  ⟨((startProcessing_issues_one_request photoChosen .image (.ok "abc123")).1
      photoPng (by decide)).1,
   ((startProcessing_issues_one_request clipChosen .video (.ok "abc123")).2.1
      clipMp4 (by decide)).1,
   ((startProcessing_issues_one_request photoChosen .video (.ok "abc123")).2.2
      (by decide)).1,
   ((startProcessing_issues_one_request photoChosen .video (.ok "abc123")).2.2
      (by decide)).2⟩

/-! ## Failures during a tick -/

/-- A tick of a poller whose timer is cleared changes nothing. -/
theorem World.tick_inactive (w : World) (i : Nat) (q : Poller) (r : TickResponse)
    (hq : w.pollers[i]? = some q) (hina : q.active = false) : w.tick i r = w := by
  rw [World.tick_eq w i q r hq]
  have : (w.env q).tick r = w.env q := by simp [Env.tick, World.env, hina]
  rw [this, World.put_env_self w i q hq]

/-- Once the timer of poller number `i` is cleared and no delayed view switch
is pending, the events of its session change nothing. -/
theorem World.run_ofSession_inactive (ops : List Op) (w : World) (i : Nat) (q : Poller)
    (hq : w.pollers[i]? = some q) (hina : q.active = false) (hd : w.delayed = 0)
    (hops : ∀ o ∈ ops, o.ofSession i = true) : w.run ops = w := by
  induction ops with
  | nil => rfl
  | cons o ops ih =>
    have hstep : w.step o = w := by
      have ho := hops o (List.mem_cons_self o ops)
      cases o with
      | tick j r =>
        have hj : j = i := by simpa [Op.ofSession] using ho
        subst hj
        exact World.tick_inactive w j q r hq hina
      | viewTimeout => simp [World.step, World.viewTimeout, hd]
      | handleImageSelect f => simp [Op.ofSession] at ho
      | handleVideoSelect f => simp [Op.ofSession] at ho
      | removeImageFile => simp [Op.ofSession] at ho
      | removeVideoFile => simp [Op.ofSession] at ho
      | startProcessing t resp => simp [Op.ofSession] at ho
      | resetView => simp [Op.ofSession] at ho
    have hrun : w.run (o :: ops) = (w.step o).run ops := rfl
    rw [hrun, hstep]
    exact ih (fun x hx => hops x (List.mem_cons_of_mem o hx))

/-- Later ticks of a poller whose timer is cleared change nothing. -/
theorem World.runTicks_inactive (rs : List TickResponse) (w : World) (i : Nat) (q : Poller)
    (hq : w.pollers[i]? = some q) (hina : q.active = false) : w.runTicks i rs = w := by
  induction rs with
  | nil => rfl
  | cons r rs ih =>
    have hrun : w.runTicks i (r :: rs) = (w.tick i r).runTicks i rs := rfl
    rw [hrun, World.tick_inactive w i q r hq hina]
    exact ih

/-- C17: when the status query of a tick fails, the tick clears the timer, sets
`error` to the server-supplied message when there is a non-empty one and
otherwise to `'Failed to get status'`, sets `processing` to false and `view` to
`'upload'`, has issued that one status query, and no later tick of the poller
issues another query or changes anything. -/
theorem status_failure_ends_session (w : World) (i : Nat) (p : Poller)
    (msg : Option String) (rr : ResultResponse) (rs : List TickResponse)
    (hp : w.pollers[i]? = some p) (ha : p.active = true) :
    (w.tick i ⟨.fail msg, rr⟩).pollers[i]?
        = some { p with attempts := p.attempts + 1, active := false } ∧
    (w.tick i ⟨.fail msg, rr⟩).app.error = some (jsOr msg "Failed to get status") ∧
    (msg = none → (w.tick i ⟨.fail msg, rr⟩).app.error = some "Failed to get status") ∧
    (∀ m, msg = some m → m ≠ "" → (w.tick i ⟨.fail msg, rr⟩).app.error = some m) ∧
    (w.tick i ⟨.fail msg, rr⟩).app.processing = false ∧
    (w.tick i ⟨.fail msg, rr⟩).app.view = .upload ∧
    (w.tick i ⟨.fail msg, rr⟩).requests = w.requests ++ [.getProcessingStatus p.jobId] ∧
    (w.tick i ⟨.fail msg, rr⟩).runTicks i rs = w.tick i ⟨.fail msg, rr⟩ := by
  have ht : w.tick i ⟨.fail msg, rr⟩ = w.put i
      { app := { w.app with error := some (jsOr msg "Failed to get status"),
                            processing := false, view := .upload },
        poller := { p with attempts := p.attempts + 1, active := false },
        requests := w.requests ++ [.getProcessingStatus p.jobId],
        delayed := w.delayed } := by
    rw [World.tick_eq w i p _ hp]
    simp [Env.tick, World.env, ha, intervalCallback, catchBlock, clearInterval]
  have hq : (w.tick i ⟨.fail msg, rr⟩).pollers[i]?
      = some { p with attempts := p.attempts + 1, active := false } := by
    rw [ht, World.put_pollers w i p _ hp]
  obtain ⟨h1, h2, -⟩ := jsOr_spec msg "Failed to get status"
  refine ⟨hq, ?_, ?_, ?_, ?_, ?_, ?_, ?_⟩
  · rw [ht]; rfl
  · intro h; rw [ht]; show some (jsOr msg "Failed to get status") = _; rw [h1 h]
  · intro m h hm; rw [ht]; show some (jsOr msg "Failed to get status") = _; rw [h2 m h hm]
  · rw [ht]; rfl
  · rw [ht]; rfl
  · rw [ht]; rfl
  · exact World.runTicks_inactive rs _ i _ hq rfl

/-- C17 at the job `abc123` whose first status query fails with a network
error and whose service would answer `'completed'` afterwards. -/
theorem status_failure_ends_session_witness :
    (photoJob.tick 0 networkErrorTick).pollers[0]?
        = some { jobId := "abc123", attempts := 1, active := false } ∧
    (photoJob.tick 0 networkErrorTick).app.error = some "Failed to get status" ∧
    (photoJob.tick 0 networkErrorTick).app.processing = false ∧
    (photoJob.tick 0 networkErrorTick).app.view = .upload ∧
    (photoJob.tick 0 networkErrorTick).requests
        = photoJob.requests ++ [.getProcessingStatus "abc123"] ∧
    (photoJob.tick 0 networkErrorTick).runTicks 0 [completedTick, processingTick]
        = photoJob.tick 0 networkErrorTick :=
  ⟨(status_failure_ends_session photoJob 0 (pollStatus "abc123") none (.fail none)
      [completedTick, processingTick] (by decide) rfl).1,
   (status_failure_ends_session photoJob 0 (pollStatus "abc123") none (.fail none)
      [completedTick, processingTick] (by decide) rfl).2.2.1 rfl,
   (status_failure_ends_session photoJob 0 (pollStatus "abc123") none (.fail none)
      [completedTick, processingTick] (by decide) rfl).2.2.2.2.1,
   (status_failure_ends_session photoJob 0 (pollStatus "abc123") none (.fail none)
      [completedTick, processingTick] (by decide) rfl).2.2.2.2.2.1,
   (status_failure_ends_session photoJob 0 (pollStatus "abc123") none (.fail none)
      [completedTick, processingTick] (by decide) rfl).2.2.2.2.2.2.1,
   (status_failure_ends_session photoJob 0 (pollStatus "abc123") none (.fail none)
      [completedTick, processingTick] (by decide) rfl).2.2.2.2.2.2.2⟩

/-- C18: when a tick receives `'completed'` and the result fetch fails, the
view is `'upload'`, `error` is non-empty, `processing` is false, `results` and
`progress` are what they were before the tick, the timer is cleared, no
delayed switch to `'results'` is scheduled, and, no such switch being pending
from before, no later event of that session changes the state, so the view
stays `'upload'`. -/
theorem result_fetch_failure_returns_to_upload (w : World) (i : Nat) (p : Poller)
    (error msg : Option String) (ops : List Op)
    (hp : w.pollers[i]? = some p) (ha : p.active = true) (hd : w.delayed = 0)
    (hops : ∀ o ∈ ops, o.ofSession i = true) :
    (w.tick i ⟨.ok "completed" error, .fail msg⟩).app.view = .upload ∧
    (w.tick i ⟨.ok "completed" error, .fail msg⟩).app.error
        = some (jsOr msg "Failed to get status") ∧
    (w.tick i ⟨.ok "completed" error, .fail msg⟩).app.error ≠ some "" ∧
    (w.tick i ⟨.ok "completed" error, .fail msg⟩).app.processing = false ∧
    (w.tick i ⟨.ok "completed" error, .fail msg⟩).app.results = w.app.results ∧
    (w.tick i ⟨.ok "completed" error, .fail msg⟩).app.progress = w.app.progress ∧
    (w.tick i ⟨.ok "completed" error, .fail msg⟩).pollers[i]?
        = some { p with attempts := p.attempts + 1, active := false } ∧
    (w.tick i ⟨.ok "completed" error, .fail msg⟩).requests
        = w.requests ++ [.getProcessingStatus p.jobId, .getResult p.jobId] ∧
    (w.tick i ⟨.ok "completed" error, .fail msg⟩).delayed = 0 ∧
    ((w.tick i ⟨.ok "completed" error, .fail msg⟩).run ops).app.view = .upload := by
  have ht : w.tick i ⟨.ok "completed" error, .fail msg⟩ = w.put i
      { app := { w.app with error := some (jsOr msg "Failed to get status"),
                            processing := false, view := .upload },
        poller := { p with attempts := p.attempts + 1, active := false },
        requests := w.requests ++ [.getProcessingStatus p.jobId, .getResult p.jobId],
        delayed := w.delayed } := by
    rw [World.tick_eq w i p _ hp]
    simp [Env.tick, World.env, ha, intervalCallback, catchBlock, clearInterval]
  have hq : (w.tick i ⟨.ok "completed" error, .fail msg⟩).pollers[i]?
      = some { p with attempts := p.attempts + 1, active := false } := by
    rw [ht, World.put_pollers w i p _ hp]
  have hd' : (w.tick i ⟨.ok "completed" error, .fail msg⟩).delayed = 0 := by
    rw [ht]; exact hd
  have hv : (w.tick i ⟨.ok "completed" error, .fail msg⟩).app.view = .upload := by
    rw [ht]; rfl
  obtain ⟨-, -, h3⟩ := jsOr_spec msg "Failed to get status"
  refine ⟨hv, ?_, ?_, ?_, ?_, ?_, hq, ?_, hd', ?_⟩
  · rw [ht]; rfl
  · rw [ht]
    intro h
    exact h3 (by decide) (Option.some.inj h)
  · rw [ht]; rfl
  · rw [ht]; rfl
  · rw [ht]; rfl
  · rw [ht]; rfl
  · rw [World.run_ofSession_inactive ops _ i _ hq rfl hd' hops]
    exact hv

/-- C18 at the job `abc123` whose first status answer is `'completed'` and
whose result fetch fails. -/
theorem result_fetch_failure_returns_to_upload_witness :
    (photoJob.tick 0 fetchFailsTick).app.view = .upload ∧
    (photoJob.tick 0 fetchFailsTick).app.error = some "Result not found" ∧
    (photoJob.tick 0 fetchFailsTick).app.processing = false ∧
    (photoJob.tick 0 fetchFailsTick).app.results = none ∧
    (photoJob.tick 0 fetchFailsTick).app.progress = 0 ∧
    ((photoJob.tick 0 fetchFailsTick).run [.viewTimeout, .tick 0 completedTick]).app.view
        = .upload :=
  ⟨(result_fetch_failure_returns_to_upload photoJob 0 (pollStatus "abc123") none
      (some "Result not found") [.viewTimeout, .tick 0 completedTick]
      (by decide) rfl rfl (by decide)).1,
   (result_fetch_failure_returns_to_upload photoJob 0 (pollStatus "abc123") none
      (some "Result not found") [.viewTimeout, .tick 0 completedTick]
      (by decide) rfl rfl (by decide)).2.1,
   (result_fetch_failure_returns_to_upload photoJob 0 (pollStatus "abc123") none
      (some "Result not found") [.viewTimeout, .tick 0 completedTick]
      (by decide) rfl rfl (by decide)).2.2.2.1,
   (result_fetch_failure_returns_to_upload photoJob 0 (pollStatus "abc123") none
      (some "Result not found") [.viewTimeout, .tick 0 completedTick]
      (by decide) rfl rfl (by decide)).2.2.2.2.1,
   (result_fetch_failure_returns_to_upload photoJob 0 (pollStatus "abc123") none
      (some "Result not found") [.viewTimeout, .tick 0 completedTick]
      (by decide) rfl rfl (by decide)).2.2.2.2.2.1,
   (result_fetch_failure_returns_to_upload photoJob 0 (pollStatus "abc123") none
      (some "Result not found") [.viewTimeout, .tick 0 completedTick]
      (by decide) rfl rfl (by decide)).2.2.2.2.2.2.2.2.2⟩

/-! ## Reset and removal -/

/-- C19: `resetView` applied to any state yields exactly the initial state
(view `'upload'`, both slots, `fileType`, `jobId`, `results` and `error` null,
`progress` 0, `processing` false), and applying it twice is the same as
applying it once. -/
theorem resetView_yields_initial (s : AppState) :
    resetView s = AppState.initial ∧
    resetView s =
      { view := .upload, imageFile := none, videoFile := none, fileType := none,
        progress := 0, jobId := none, results := none, error := none,
        processing := false } ∧
    resetView (resetView s) = resetView s := by
  refine ⟨rfl, rfl, rfl⟩

/-- C20: `removeImageFile` (resp. `removeVideoFile`) is defined on every state,
leaves the image (resp. video) slot null whether or not it held a file, and
changes no other state cell, no poller, no pending timeout and no request. -/
theorem remove_clears_only_own_slot (w : World) :
    (w.step .removeImageFile).app.imageFile = none ∧
    (w.step .removeImageFile).app.videoFile = w.app.videoFile ∧
    (w.step .removeImageFile).app.view = w.app.view ∧
    (w.step .removeImageFile).app.error = w.app.error ∧
    (w.step .removeImageFile).app.progress = w.app.progress ∧
    (w.step .removeImageFile).app.jobId = w.app.jobId ∧
    (w.step .removeImageFile).app.results = w.app.results ∧
    (w.step .removeImageFile).app.processing = w.app.processing ∧
    w.step .removeImageFile = { w with app := { w.app with imageFile := none } } ∧
    (w.step .removeVideoFile).app.videoFile = none ∧
    (w.step .removeVideoFile).app.imageFile = w.app.imageFile ∧
    (w.step .removeVideoFile).app.view = w.app.view ∧
    (w.step .removeVideoFile).app.error = w.app.error ∧
    (w.step .removeVideoFile).app.progress = w.app.progress ∧
    (w.step .removeVideoFile).app.jobId = w.app.jobId ∧
    (w.step .removeVideoFile).app.results = w.app.results ∧
    (w.step .removeVideoFile).app.processing = w.app.processing ∧
    w.step .removeVideoFile = { w with app := { w.app with videoFile := none } } := by
  refine ⟨rfl, rfl, rfl, rfl, rfl, rfl, rfl, rfl, rfl, rfl, rfl, rfl, rfl, rfl, rfl, rfl,
    rfl, rfl⟩

/-! ## Sessions that outlive their view -/

/-- The job `abc123` answered `'queued'` fewer than 300 times is a reachable state. -/
theorem reachable_queuedSession (n : Nat) (hn : n < 300) : Reachable (queuedSession n) := by
  induction n with
  | zero =>
    have h0 : queuedSession 0 =
        (Hist.initial.step (.handleImageSelect (some photoPng))).step
          (.startProcessing .image (.ok "abc123")) := by decide
    rw [h0]
    exact Reachable.step _ _ (Reachable.step _ _ Reachable.initial (by decide)) (by decide)
  | succ n ih =>
    have hstep : queuedSession (n + 1) = (queuedSession n).step (.tick 0 queuedTick) := by
      have hnot : ¬ (n + 1 ≥ maxAttempts) := by
        simp only [maxAttempts]; omega
      simp [queuedSession, Hist.step, World.step, World.tick, World.put, World.env, Env.tick,
        intervalCallback, queuedTick, timeoutCheck, hnot, List.replicate_succ']
    rw [hstep]
    exact Reachable.step _ _ (ih (by omega)) (by simp [Op.enabled, queuedSession])

/-- The state `raceAfterReset` is reachable. -/
theorem reachable_raceAfterReset : Reachable raceAfterReset := by
  have h0 := reachable_queuedSession 299 (by decide)
  have h1 := Reachable.step _ (.tick 0 completedTick) h0 (by decide)
  have h2 := Reachable.step _ (.startProcessing .image (.ok "job-B")) h1 (by decide)
  have h3 := Reachable.step _ .viewTimeout h2 (by decide)
  exact Reachable.step _ .resetView h3 (by decide)

/-- The state `raceTwoTimers` is reachable. -/
theorem reachable_raceTwoTimers : Reachable raceTwoTimers := by
  have h1 := Reachable.step _ (.handleImageSelect (some photoPng)) reachable_raceAfterReset
    (by decide)
  exact Reachable.step _ (.startProcessing .image (.ok "job-C")) h1 (by decide)

/-- C11 at its failing input: after the job `abc123` got `'completed'` on its
300th tick, a second job (`job-B`) was started before the delayed view switch
fired, the back button was pressed and a third job (`job-C`) was started, the
poller of `job-B` receives `'completed'`: the state is reachable, `progress` is
100 and the current job is `job-C`, for which no `'completed'` status has been
observed. -/
theorem stale_completion_sets_progress_100 :
    Reachable raceStaleCompletion ∧
    raceStaleCompletion.world.app.progress = 100 ∧
    raceStaleCompletion.world.app.jobId = some "job-C" ∧
    raceStaleCompletion.completedFor = ["job-B", "abc123"] ∧
    "job-C" ∉ raceStaleCompletion.completedFor ∧
    ¬ raceStaleCompletion.world.app.progress ≤ 95 := by
  refine ⟨?_, by decide, by decide, by decide, by decide, by decide⟩
  exact Reachable.step _ (.tick 1 completedTick) reachable_raceTwoTimers (by decide)

/-- C13 at its failing input: after the job `abc123` got `'completed'` on its
300th tick and a second job was started before the delayed view switch fired,
pressing the back button leaves the view `'upload'` with one timer running, and
starting a third job leaves two timers running; both states are reachable
through operations the page lets happen. -/
theorem two_timers_after_late_completion :
    Reachable raceAfterReset ∧
    raceAfterReset.world.app.view = .upload ∧
    activeTimers raceAfterReset.world = 1 ∧
    Reachable raceTwoTimers ∧
    activeTimers raceTwoTimers.world = 2 := by
  exact ⟨reachable_raceAfterReset, by decide, by decide, reachable_raceTwoTimers, by decide⟩

/-- The handler `resetView` sets the nine state cells to their initial values
and stops no timer: the pollers, the request log and the pending delayed view
switches are what they were. A poller that was running keeps ticking on the
reset state: before its 300th tick an answer `'processing'` raises `progress`
from 0 to 2, and an answer `'completed'` with a fetched payload stores the
payload, sets `progress` to 100 and schedules the switch to the results view. -/
theorem resetView_leaves_timers_running (w : World) (i : Nat) (p : Poller)
    (error : Option String) (rr : ResultResponse) (data : Payload)
    (hp : w.pollers[i]? = some p) (ha : p.active = true)
    (hlt : p.attempts + 1 < maxAttempts) :
    (w.step .resetView).app = AppState.initial ∧
    (w.step .resetView).pollers = w.pollers ∧
    (w.step .resetView).requests = w.requests ∧
    (w.step .resetView).delayed = w.delayed ∧
    activeTimers (w.step .resetView) = activeTimers w ∧
    ((w.step .resetView).step (.tick i ⟨.ok "processing" error, rr⟩)).app
        = { AppState.initial with progress := 2 } ∧
    ((w.step .resetView).step (.tick i ⟨.ok "completed" error, .ok data⟩)).app
        = { AppState.initial with results := some data, progress := 100 } ∧
    ((w.step .resetView).step (.tick i ⟨.ok "completed" error, .ok data⟩)).delayed
        = w.delayed + 1 := by
  have hnot : ¬ (p.attempts + 1 ≥ maxAttempts) := Nat.not_le.mpr hlt
  have hp' : (w.step .resetView).pollers[i]? = some p := hp
  refine ⟨rfl, rfl, rfl, rfl, rfl, ?_, ?_, ?_⟩
  · show ((w.step .resetView).tick i ⟨.ok "processing" error, rr⟩).app = _
    rw [World.tick_eq _ i p _ hp']
    simp [World.put, World.env, World.step, resetView, AppState.initial, Env.tick, ha,
      intervalCallback, timeoutCheck, hnot, progressUpdater]
  · show ((w.step .resetView).tick i ⟨.ok "completed" error, .ok data⟩).app = _
    rw [World.tick_eq _ i p _ hp']
    simp [World.put, World.env, World.step, resetView, AppState.initial, Env.tick, ha,
      intervalCallback, timeoutCheck, clearInterval, hnot]
  · show ((w.step .resetView).tick i ⟨.ok "completed" error, .ok data⟩).delayed = _
    rw [World.tick_eq _ i p _ hp']
    simp [World.put, World.env, World.step, Env.tick, ha,
      intervalCallback, timeoutCheck, clearInterval, hnot]

/-! ## The single-session discipline when no completion is late -/

/-- What one run of the interval callback can do to the cells the
single-session discipline talks about. -/
theorem intervalCallback_effect (e : Env) (r : TickResponse) :
    (intervalCallback e r).app.jobId = e.app.jobId ∧
    (intervalCallback e r).poller.jobId = e.poller.jobId ∧
    ((intervalCallback e r).poller.active = true →
      (intervalCallback e r).app.view = e.app.view ∧
      (intervalCallback e r).delayed = e.delayed) ∧
    ((intervalCallback e r).delayed = e.delayed ∨
      ((intervalCallback e r).delayed = e.delayed + 1 ∧
        (∃ err data, r = ⟨.ok "completed" err, .ok data⟩) ∧
        (e.poller.attempts + 1 < maxAttempts →
          (intervalCallback e r).app.view = e.app.view))) ∧
    ((intervalCallback e r).app.progress ≤ 95 ∨
      (intervalCallback e r).app.progress = e.app.progress ∨
      ((intervalCallback e r).app.progress = 100 ∧
        ∃ err, r.status = .ok "completed" err)) := by
  obtain ⟨st, rr⟩ := r
  cases st with
  | fail err => simp [intervalCallback, catchBlock, clearInterval]
  | ok status err =>
    cases rr with
    | fail msg =>
      simp only [intervalCallback, catchBlock, timeoutCheck, clearInterval, progressUpdater]
      split_ifs <;> simp_all
    | ok data =>
      simp only [intervalCallback, catchBlock, timeoutCheck, clearInterval, progressUpdater]
      split_ifs <;> simp_all

/-- The record of completed jobs only grows. -/
theorem Hist.step_completedFor_mono (h : Hist) (op : Op) (j : String)
    (hj : j ∈ h.completedFor) : j ∈ (h.step op).completedFor := by
  cases op with
  | tick i r =>
    simp only [Hist.step]
    split
    · split_ifs
      · exact List.mem_cons_of_mem _ hj
      · exact hj
    · exact hj
  | handleImageSelect f => exact hj
  | handleVideoSelect f => exact hj
  | removeImageFile => exact hj
  | removeVideoFile => exact hj
  | startProcessing t resp => exact hj
  | viewTimeout => exact hj
  | resetView => exact hj

/-- The image handler writes neither `view`, `jobId` nor `progress`. -/
theorem handleImageSelect_frame (s : AppState) (f : Option File) :
    (handleImageSelect s f).view = s.view ∧ (handleImageSelect s f).jobId = s.jobId ∧
    (handleImageSelect s f).progress = s.progress := by
  cases f with
  | none => exact ⟨rfl, rfl, rfl⟩
  | some f => simp only [handleImageSelect]; split_ifs <;> exact ⟨rfl, rfl, rfl⟩

/-- The video handler writes neither `view`, `jobId` nor `progress`. -/
theorem handleVideoSelect_frame (s : AppState) (f : Option File) :
    (handleVideoSelect s f).view = s.view ∧ (handleVideoSelect s f).jobId = s.jobId ∧
    (handleVideoSelect s f).progress = s.progress := by
  cases f with
  | none => exact ⟨rfl, rfl, rfl⟩
  | some f => simp only [handleVideoSelect]; split_ifs <;> exact ⟨rfl, rfl, rfl⟩

/-- The discipline carries over to a state that differs in none of the cells
it talks about. -/
theorem SingleSession.of_frame (h h' : Hist) (hinv : SingleSession h)
    (hp : h'.world.pollers = h.world.pollers) (hd : h'.world.delayed = h.world.delayed)
    (hv : h'.world.app.view = h.world.app.view)
    (hj : h'.world.app.jobId = h.world.app.jobId)
    (hpr : h'.world.app.progress = h.world.app.progress)
    (hc : h'.completedFor = h.completedFor) : SingleSession h' := by
  unfold SingleSession at *
  rw [hp, hd, hv, hj, hpr, hc]
  exact hinv

/-- The discipline holds in a state without a running poller as soon as its
clauses about the delayed view switch and about `progress` hold. -/
theorem SingleSession.of_noActive (h : Hist)
    (hna : ∀ (i : Nat) (p : Poller), h.world.pollers[i]? = some p → p.active = false)
    (hd : h.world.delayed ≤ 1)
    (hdv : 0 < h.world.delayed → h.world.app.view = .processing)
    (hpr : h.world.app.progress ≤ 95 ∨
      (h.world.app.progress = 100 ∧
        ∃ j, h.world.app.jobId = some j ∧ j ∈ h.completedFor)) : SingleSession h := by
  refine ⟨?_, ?_, hd, hdv, hpr⟩
  · intro i j p q hp _ hpa _
    rw [hna i p hp] at hpa
    exact absurd hpa (by decide)
  · intro i p hp hpa
    rw [hna i p hp] at hpa
    exact absurd hpa (by decide)

/-- Under the discipline no poller runs outside the processing view. -/
theorem SingleSession.noActive_of_view (h : Hist) (hinv : SingleSession h)
    (hv : h.world.app.view ≠ .processing) :
    ∀ (i : Nat) (p : Poller), h.world.pollers[i]? = some p → p.active = false := by
  intro i p hp
  by_contra hact
  have hact' : p.active = true := by simpa using hact
  exact hv (hinv.2.1 i p hp hact').1

/-- Under the discipline no poller runs while a delayed view switch is pending. -/
theorem SingleSession.noActive_of_delayed (h : Hist) (hinv : SingleSession h)
    (hd : 0 < h.world.delayed) :
    ∀ (i : Nat) (p : Poller), h.world.pollers[i]? = some p → p.active = false := by
  intro i p hp
  by_contra hact
  have hact' : p.active = true := by simpa using hact
  have := (hinv.2.1 i p hp hact').2.1
  omega

/-- Every operation the page lets happen, late completions apart, preserves
the single-session discipline. -/
theorem step_singleSession (h : Hist) (op : Op) (hinv : SingleSession h)
    (hen : op.enabled h.world = true) (hlate : op.lateCompletion h.world = false) :
    SingleSession (h.step op) := by
  cases op with
  | handleImageSelect f =>
    obtain ⟨a, b, c⟩ := handleImageSelect_frame h.world.app f
    exact SingleSession.of_frame h _ hinv rfl rfl a b c rfl
  | handleVideoSelect f =>
    obtain ⟨a, b, c⟩ := handleVideoSelect_frame h.world.app f
    exact SingleSession.of_frame h _ hinv rfl rfl a b c rfl
  | removeImageFile => exact SingleSession.of_frame h _ hinv rfl rfl rfl rfl rfl rfl
  | removeVideoFile => exact SingleSession.of_frame h _ hinv rfl rfl rfl rfl rfl rfl
  | startProcessing t resp =>
    simp only [Op.enabled, Bool.and_eq_true, decide_eq_true_eq] at hen
    obtain ⟨⟨hv, -⟩, hfile⟩ := hen
    have hna := SingleSession.noActive_of_view h hinv (by rw [hv]; decide)
    have hd0 : h.world.delayed = 0 := by
      by_contra hne
      have := hinv.2.2.2.1 (Nat.pos_of_ne_zero hne)
      rw [hv] at this
      exact absurd this (by decide)
    obtain ⟨f, hf⟩ := Option.isSome_iff_exists.mp hfile
    cases resp with
    | ok job =>
      have hpol : (h.step (.startProcessing t (.ok job))).world.pollers
          = h.world.pollers ++ [pollStatus job] := by
        simp [Hist.step, World.step, startProcessing, hf]
      have hview : (h.step (.startProcessing t (.ok job))).world.app.view = .processing := by
        simp [Hist.step, World.step, startProcessing, hf]
      have hdel : (h.step (.startProcessing t (.ok job))).world.delayed = 0 := by
        simp [Hist.step, World.step, startProcessing, hf, hd0]
      have hjob : (h.step (.startProcessing t (.ok job))).world.app.jobId = some job := by
        simp [Hist.step, World.step, startProcessing, hf]
      have hprog : (h.step (.startProcessing t (.ok job))).world.app.progress = 0 := by
        simp [Hist.step, World.step, startProcessing, hf]
      have key : ∀ (a : Nat) (x : Poller),
          (h.world.pollers ++ [pollStatus job])[a]? = some x → x.active = true →
          a = h.world.pollers.length ∧ x = pollStatus job := by
        intro a x hx hxa
        by_cases hlt : a < h.world.pollers.length
        · rw [List.getElem?_append_left hlt] at hx
          rw [hna a x hx] at hxa
          exact absurd hxa (by decide)
        · have hge : h.world.pollers.length ≤ a := Nat.le_of_not_lt hlt
          rw [List.getElem?_append_right hge] at hx
          have hidx : a - h.world.pollers.length = 0 := by
            by_contra hne
            obtain ⟨k, hk⟩ := Nat.exists_eq_succ_of_ne_zero hne
            rw [hk] at hx
            simp at hx
          rw [hidx] at hx
          exact ⟨by omega, by simpa using hx.symm⟩
      refine ⟨?_, ?_, ?_, ?_, ?_⟩
      · intro a b x y hx hy hxa hya
        rw [hpol] at hx hy
        rw [(key a x hx hxa).1, (key b y hy hya).1]
      · intro a x hx hxa
        rw [hpol] at hx
        rw [(key a x hx hxa).2]
        exact ⟨hview, hdel, hjob⟩
      · rw [hdel]; exact Nat.zero_le 1
      · intro _; exact hview
      · left; rw [hprog]; decide
    | fail err =>
      have hpol : (h.step (.startProcessing t (.fail err))).world.pollers
          = h.world.pollers := by
        simp [Hist.step, World.step, startProcessing, hf]
      have hdel : (h.step (.startProcessing t (.fail err))).world.delayed = 0 := by
        simp [Hist.step, World.step, startProcessing, hf, hd0]
      have hprog : (h.step (.startProcessing t (.fail err))).world.app.progress = 0 := by
        simp [Hist.step, World.step, startProcessing, hf]
      apply SingleSession.of_noActive
      · intro a x hx; rw [hpol] at hx; exact hna a x hx
      · rw [hdel]; exact Nat.zero_le 1
      · intro hpos; rw [hdel] at hpos; exact absurd hpos (by decide)
      · left; rw [hprog]; decide
  | tick i r =>
    cases hq : h.world.pollers[i]? with
    | none => simp [Op.enabled, hq] at hen
    | some p =>
      have hpa : p.active = true := by simpa [Op.enabled, hq] using hen
      have hw : (h.step (.tick i r)).world
          = h.world.put i (intervalCallback (h.world.env p) r) := by
        simp [Hist.step, World.step, World.tick, hq, Env.tick, World.env, hpa]
      obtain ⟨ej, epj, eact, edel, eprog⟩ := intervalCallback_effect (h.world.env p) r
      obtain ⟨pv, pd, pj⟩ := hinv.2.1 i p hq hpa
      obtain ⟨hi, -⟩ := List.getElem?_eq_some.mp hq
      have key : ∀ (a : Nat) (x : Poller),
          (h.step (.tick i r)).world.pollers[a]? = some x → x.active = true →
          a = i ∧ x = (intervalCallback (h.world.env p) r).poller := by
        intro a x hx hxa
        rw [hw] at hx
        simp only [World.put] at hx
        by_cases hai : a = i
        · subst hai
          rw [List.getElem?_set_self hi] at hx
          exact ⟨rfl, (Option.some.inj hx).symm⟩
        · rw [List.getElem?_set_ne (Ne.symm hai)] at hx
          exact absurd (hinv.1 a i x p hx hq hxa hpa) hai
      refine ⟨?_, ?_, ?_, ?_, ?_⟩
      · intro a b x y hx hy hxa hya
        rw [(key a x hx hxa).1, (key b y hy hya).1]
      · intro a x hx hxa
        obtain ⟨-, hxe⟩ := key a x hx hxa
        subst hxe
        obtain ⟨v, d⟩ := eact hxa
        rw [hw]
        refine ⟨v.trans pv, d.trans pd, ?_⟩
        show (intervalCallback (h.world.env p) r).app.jobId = _
        rw [ej, epj]
        exact pj
      · rw [hw]
        show (intervalCallback (h.world.env p) r).delayed ≤ 1
        have pd' : (h.world.env p).delayed = 0 := pd
        rcases edel with d | ⟨d, -, -⟩ <;> omega
      · intro hpos
        rw [hw] at hpos ⊢
        have hpos' : 0 < (intervalCallback (h.world.env p) r).delayed := hpos
        have pd' : (h.world.env p).delayed = 0 := pd
        show (intervalCallback (h.world.env p) r).app.view = _
        rcases edel with d | ⟨-, ⟨err, data, hr⟩, hvw⟩
        · omega
        · subst hr
          have hlt : (h.world.env p).poller.attempts + 1 < maxAttempts := by
            simp only [Op.lateCompletion, hq, decide_True, Bool.true_and,
              decide_eq_false_iff_not, Nat.not_le] at hlate
            exact hlate
          exact (hvw hlt).trans pv
      · rw [hw]
        show (intervalCallback (h.world.env p) r).app.progress ≤ 95 ∨
          ((intervalCallback (h.world.env p) r).app.progress = 100 ∧
            ∃ j, (intervalCallback (h.world.env p) r).app.jobId = some j ∧
              j ∈ (h.step (.tick i r)).completedFor)
        rcases eprog with h95 | hsame | ⟨h100, err, hst⟩
        · exact Or.inl h95
        · rcases hinv.2.2.2.2 with a | ⟨a, j, hj, hmem⟩
          · left; rw [hsame]; exact a
          · right
            exact ⟨hsame.trans a, j, ej.trans hj,
              Hist.step_completedFor_mono h (.tick i r) j hmem⟩
        · right
          refine ⟨h100, p.jobId, ej.trans pj, ?_⟩
          simp [Hist.step, hq, hst, hpa]
  | viewTimeout =>
    have hpos : 0 < h.world.delayed := by simpa [Op.enabled] using hen
    have hna := SingleSession.noActive_of_delayed h hinv hpos
    have hle := hinv.2.2.1
    have hone : h.world.delayed = 0 + 1 := by omega
    have hpol : (h.step .viewTimeout).world.pollers = h.world.pollers := by
      simp only [Hist.step, World.step, World.viewTimeout]
      split <;> rfl
    have hdel : (h.step .viewTimeout).world.delayed = 0 := by
      simp [Hist.step, World.step, World.viewTimeout, hone]
    have hprog : (h.step .viewTimeout).world.app.progress = h.world.app.progress := by
      simp only [Hist.step, World.step, World.viewTimeout]
      split <;> rfl
    have hjob : (h.step .viewTimeout).world.app.jobId = h.world.app.jobId := by
      simp only [Hist.step, World.step, World.viewTimeout]
      split <;> rfl
    apply SingleSession.of_noActive
    · intro a x hx; rw [hpol] at hx; exact hna a x hx
    · rw [hdel]; exact Nat.zero_le 1
    · intro hp; rw [hdel] at hp; exact absurd hp (by decide)
    · rw [hprog, hjob]; exact hinv.2.2.2.2
  | resetView =>
    simp only [Op.enabled, Bool.and_eq_true, decide_eq_true_eq] at hen
    have hna := SingleSession.noActive_of_view h hinv (by rw [hen.1]; decide)
    have hd0 : h.world.delayed = 0 := by
      by_contra hne
      have := hinv.2.2.2.1 (Nat.pos_of_ne_zero hne)
      rw [hen.1] at this
      exact absurd this (by decide)
    apply SingleSession.of_noActive
    · exact hna
    · show h.world.delayed ≤ 1
      omega
    · intro hp
      have hp' : 0 < h.world.delayed := hp
      omega
    · left
      show (0 : Int) ≤ 95
      decide

/-- Every state reached without a late completion obeys the discipline. -/
theorem reachableOnTime_singleSession (h : Hist) (hr : ReachableOnTime h) :
    SingleSession h := by
  induction hr with
  | initial =>
    apply SingleSession.of_noActive
    · intro i p hp; simp [Hist.initial, World.initial] at hp
    · exact Nat.zero_le 1
    · intro hp; exact absurd hp (by decide)
    · left; decide
  | step h op _ hen hlate ih => exact step_singleSession h op ih hen hlate

/-- No running poller means no uncleared timer. -/
theorem activeTimers_eq_zero (w : World)
    (hna : ∀ (i : Nat) (p : Poller), w.pollers[i]? = some p → p.active = false) :
    activeTimers w = 0 := by
  unfold activeTimers
  rw [List.countP_eq_zero]
  intro p hp
  obtain ⟨i, hi⟩ := List.mem_iff_getElem?.mp hp
  simp [hna i p hi]

/-- If two running pollers always sit at the same index, at most one timer is
uncleared. -/
theorem countP_active_le_one (l : List Poller)
    (huniq : ∀ (i j : Nat) (p q : Poller), l[i]? = some p → l[j]? = some q →
      p.active = true → q.active = true → i = j) :
    l.countP (fun p => p.active) ≤ 1 := by
  induction l with
  | nil => simp
  | cons a t ih =>
    have ht : ∀ (i j : Nat) (p q : Poller), t[i]? = some p → t[j]? = some q →
        p.active = true → q.active = true → i = j := by
      intro i j p q hp hq hpa hqa
      have := huniq (i + 1) (j + 1) p q (by simpa using hp) (by simpa using hq) hpa hqa
      omega
    by_cases ha : a.active = true
    · have hzero : t.countP (fun p => p.active) = 0 := by
        rw [List.countP_eq_zero]
        intro x hx
        obtain ⟨k, hk⟩ := List.mem_iff_getElem?.mp hx
        intro hxa
        have := huniq 0 (k + 1) a x (by simp) (by simpa using hk) ha hxa
        omega
      rw [List.countP_cons_of_pos _ _ ha, hzero]
    · rw [List.countP_cons_of_neg _ _ ha]
      exact ih ht

/-- In every state reached through the operations `Op.enabled` admits, without
a late completion, at most one timer is uncleared, none is outside the
processing view, and `progress` is 100 only if the current job has been seen
completed and is at most 95 otherwise. The view that `AnimatePresence` keeps
mounted while it fades out is not among those operations. -/
theorem single_session_when_no_completion_is_late (h : Hist) (hr : ReachableOnTime h) :
    activeTimers h.world ≤ 1 ∧
    (h.world.app.view ≠ .processing → activeTimers h.world = 0) ∧
    (h.world.app.progress = 100 →
      ∃ j, h.world.app.jobId = some j ∧ j ∈ h.completedFor) ∧
    (h.world.app.progress ≠ 100 → h.world.app.progress ≤ 95) := by
  have hinv := reachableOnTime_singleSession h hr
  refine ⟨countP_active_le_one _ hinv.1, ?_, ?_, ?_⟩
  · intro hv
    exact activeTimers_eq_zero _ (SingleSession.noActive_of_view h hinv hv)
  · intro h100
    rcases hinv.2.2.2.2 with a | ⟨-, hj⟩
    · omega
    · exact hj
  · intro hne
    rcases hinv.2.2.2.2 with a | ⟨a, -⟩
    · exact a
    · exact absurd a hne

/-! ## Rejected selections -/

/-- C21: offering a file of the wrong type to a handler sets `error` to a
non-empty message of that handler (the image message differs from the video
message) and changes neither `view`, `jobId` nor `processing`; no request is
issued and no poller is created. -/
theorem wrong_type_sets_category_error (w : World) (f : File) :
    (jsStartsWith f.type "image/" = false →
      (w.step (.handleImageSelect (some f))).app.error
          = some "Please select a valid image file (PNG, JPG, JPEG)" ∧
      (w.step (.handleImageSelect (some f))).app.view = w.app.view ∧
      (w.step (.handleImageSelect (some f))).app.jobId = w.app.jobId ∧
      (w.step (.handleImageSelect (some f))).app.processing = w.app.processing ∧
      (w.step (.handleImageSelect (some f))).requests = w.requests ∧
      (w.step (.handleImageSelect (some f))).pollers = w.pollers) ∧
    (jsStartsWith f.type "video/" = false →
      (w.step (.handleVideoSelect (some f))).app.error
          = some "Please select a valid video file (MP4, AVI, MOV, MKV)" ∧
      (w.step (.handleVideoSelect (some f))).app.view = w.app.view ∧
      (w.step (.handleVideoSelect (some f))).app.jobId = w.app.jobId ∧
      (w.step (.handleVideoSelect (some f))).app.processing = w.app.processing ∧
      (w.step (.handleVideoSelect (some f))).requests = w.requests ∧
      (w.step (.handleVideoSelect (some f))).pollers = w.pollers) ∧
    "Please select a valid image file (PNG, JPG, JPEG)"
      ≠ "Please select a valid video file (MP4, AVI, MOV, MKV)" ∧
    "Please select a valid image file (PNG, JPG, JPEG)" ≠ "" ∧
    "Please select a valid video file (MP4, AVI, MOV, MKV)" ≠ "" := by
  refine ⟨?_, ?_, by decide, by decide, by decide⟩
  · intro h
    simp [World.step, handleImageSelect, h]
  · intro h
    simp [World.step, handleVideoSelect, h]

/-- C21 at `document.pdf` offered to either handler on the freshly mounted page. -/
theorem wrong_type_sets_category_error_witness :
    ((World.initial.step (.handleImageSelect (some documentPdf))).app.error
          = some "Please select a valid image file (PNG, JPG, JPEG)" ∧
      (World.initial.step (.handleImageSelect (some documentPdf))).app.view = .upload ∧
      (World.initial.step (.handleImageSelect (some documentPdf))).app.jobId = none ∧
      (World.initial.step (.handleImageSelect (some documentPdf))).app.processing = false ∧
      (World.initial.step (.handleImageSelect (some documentPdf))).requests = [] ∧
      (World.initial.step (.handleImageSelect (some documentPdf))).pollers = []) ∧
    ((World.initial.step (.handleVideoSelect (some documentPdf))).app.error
          = some "Please select a valid video file (MP4, AVI, MOV, MKV)" ∧
      (World.initial.step (.handleVideoSelect (some documentPdf))).app.view = .upload ∧
      (World.initial.step (.handleVideoSelect (some documentPdf))).app.jobId = none ∧
      (World.initial.step (.handleVideoSelect (some documentPdf))).app.processing = false ∧
      (World.initial.step (.handleVideoSelect (some documentPdf))).requests = [] ∧
      (World.initial.step (.handleVideoSelect (some documentPdf))).pollers = []) :=
  ⟨(wrong_type_sets_category_error World.initial documentPdf).1 (by decide),
   (wrong_type_sets_category_error World.initial documentPdf).2.1 (by decide)⟩

/-! ## The component `VideoUpload` -/

/-- C29: `handleFile` stores the file as `selectedFile` when its type starts
with `video/` and changes nothing else; for every other file it leaves
`selectedFile` (and `dragActive`, `uploading`) as they were and only shows the
alert; `handleRemoveFile` always leaves `selectedFile` null. -/
theorem handleFile_stores_only_videos (s : VideoUploadState) (f : File) :
    (jsStartsWith f.type "video/" = true →
      handleFile s f = { s with selectedFile := some f }) ∧
    (jsStartsWith f.type "video/" = false →
      (handleFile s f).selectedFile = s.selectedFile ∧
      handleFile s f = { s with alerts := s.alerts ++ ["Please upload a valid video file"] }) ∧
    ((handleFile s f).selectedFile ≠ s.selectedFile → jsStartsWith f.type "video/" = true) ∧
    (handleRemoveFile s).selectedFile = none ∧
    handleRemoveFile s = { s with selectedFile := none } := by
  refine ⟨?_, ?_, ?_, rfl, rfl⟩
  · intro h; simp [handleFile, h]
  · intro h; simp [handleFile, h]
  · intro h
    by_contra hne
    have hf : jsStartsWith f.type "video/" = false := by simpa using hne
    exact h (by simp [handleFile, hf])

/-- C29 at `clip.mp4` offered first and `document.pdf` offered next. -/
theorem handleFile_stores_only_videos_witness :
    handleFile VideoUploadState.initial clipMp4
        = { VideoUploadState.initial with selectedFile := some clipMp4 } ∧
    (handleFile (handleFile VideoUploadState.initial clipMp4) documentPdf).selectedFile
        = some clipMp4 ∧
    (handleRemoveFile (handleFile VideoUploadState.initial clipMp4)).selectedFile = none :=
  ⟨(handleFile_stores_only_videos VideoUploadState.initial clipMp4).1 (by decide),
   ((handleFile_stores_only_videos (handleFile VideoUploadState.initial clipMp4)
      documentPdf).2.1 (by decide)).1.trans (by decide),
   (handleFile_stores_only_videos (handleFile VideoUploadState.initial clipMp4)
      clipMp4).2.2.2.1⟩

/-! ## The results view -/

/-- What a rendered image part was rendered from. -/
theorem renderImagePart_inv (s : AppState) (results : Payload) (i : Option ImageSection)
    (h : renderImagePart s results = .ok i) :
    i = none ∨
      (s.fileType = some .image ∧ ∃ images rendered, results.images = some images ∧
        renderImageSection results images = .ok rendered ∧ i = some rendered) := by
  unfold renderImagePart at h
  by_cases hi : s.fileType = some .image
  · rw [if_pos hi] at h
    cases him : results.images with
    | none =>
      rw [him] at h
      exact Or.inl (Rendering.ok.inj h).symm
    | some images =>
      rw [him] at h
      dsimp only at h
      cases hren : renderImageSection results images with
      | typeError what => rw [hren] at h; simp at h
      | ok rendered =>
        rw [hren] at h
        exact Or.inr ⟨hi, images, rendered, rfl, hren, (Rendering.ok.inj h).symm⟩
  · rw [if_neg hi] at h
    exact Or.inl (Rendering.ok.inj h).symm

/-- What a rendered video part was rendered from. -/
theorem renderVideoPart_inv (s : AppState) (results : Payload) (v : Option VideoSection)
    (h : renderVideoPart s results = .ok v) :
    v = none ∨
      (s.fileType = some .video ∧ ∃ frames rendered, results.sample_frames = some frames ∧
        renderVideoSection results frames = .ok rendered ∧ v = some rendered) := by
  unfold renderVideoPart at h
  by_cases hi : s.fileType = some .video
  · rw [if_pos hi] at h
    cases hsf : results.sample_frames with
    | none =>
      rw [hsf] at h
      exact Or.inl (Rendering.ok.inj h).symm
    | some frames =>
      rw [hsf] at h
      dsimp only at h
      cases hren : renderVideoSection results frames with
      | typeError what => rw [hren] at h; simp at h
      | ok rendered =>
        rw [hren] at h
        exact Or.inr ⟨hi, frames, rendered, rfl, hren, (Rendering.ok.inj h).symm⟩
  · rw [if_neg hi] at h
    exact Or.inl (Rendering.ok.inj h).symm

/-- What a rendered results view was rendered from. -/
theorem renderResults_inv (s : AppState) (v : ResultsView)
    (h : renderResults s = .ok (some v)) :
    ∃ results, s.view = .results ∧ s.results = some results ∧
      (v.imageSection = none ∨
        (s.fileType = some .image ∧ ∃ images rendered, results.images = some images ∧
          renderImageSection results images = .ok rendered ∧
          v.imageSection = some rendered)) ∧
      (v.videoSection = none ∨
        (s.fileType = some .video ∧ ∃ frames rendered, results.sample_frames = some frames ∧
          renderVideoSection results frames = .ok rendered ∧
          v.videoSection = some rendered)) ∧
      v.error = (if jsTruthy s.error then s.error else none) := by
  unfold renderResults at h
  by_cases hv : s.view = .results
  · rw [if_pos hv] at h
    cases hr : s.results with
    | none => rw [hr] at h; simp at h
    | some results =>
      rw [hr] at h
      dsimp only at h
      cases hip : renderImagePart s results with
      | typeError what => rw [hip] at h; simp at h
      | ok i =>
        cases hvp : renderVideoPart s results with
        | typeError what => rw [hip, hvp] at h; simp at h
        | ok vs =>
          rw [hip, hvp] at h
          have hveq := Option.some.inj (Rendering.ok.inj h)
          subst hveq
          exact ⟨results, hv, rfl, renderImagePart_inv s results i hip,
            renderVideoPart_inv s results vs hvp, rfl⟩
  · rw [if_neg hv] at h
    simp at h

/-- C22: whatever the payload, a rendered results view contains the image
section only if `fileType` is `'image'` and the video section only if
`fileType` is `'video'`, so it never contains both. -/
theorem section_selected_by_fileType (s : AppState) (v : ResultsView)
    (h : renderResults s = .ok (some v)) :
    (v.imageSection ≠ none → s.fileType = some .image) ∧
    (v.videoSection ≠ none → s.fileType = some .video) ∧
    (v.imageSection = none ∨ v.videoSection = none) := by
  obtain ⟨results, -, -, hi, hv, -⟩ := renderResults_inv s v h
  refine ⟨?_, ?_, ?_⟩
  · intro hne
    rcases hi with hn | ⟨hft, -⟩
    · exact absurd hn hne
    · exact hft
  · intro hne
    rcases hv with hn | ⟨hft, -⟩
    · exact absurd hn hne
    · exact hft
  · rcases hi with hn | ⟨hft, -⟩
    · exact Or.inl hn
    · rcases hv with hn | ⟨hft2, -⟩
      · exact Or.inr hn
      · rw [hft] at hft2
        exact absurd hft2 (by decide)

/-- C22 at an image job whose payload carries both `images` and
`sample_frames`: only the image section is rendered. -/
theorem section_selected_by_fileType_witness :
    renderResults (imageJobDone bothShapesPayload)
        = .ok (some { imageSection := some bothShapesImageSection, videoSection := none,
                      error := none }) ∧
    bothShapesPayload.sample_frames ≠ none ∧
    ((some bothShapesImageSection ≠ none →
        (imageJobDone bothShapesPayload).fileType = some .image) ∧
      ((none : Option VideoSection) ≠ none →
        (imageJobDone bothShapesPayload).fileType = some .video) ∧
      (some bothShapesImageSection = none ∨ (none : Option VideoSection) = none)) :=
  ⟨by decide, by decide,
   section_selected_by_fileType (imageJobDone bothShapesPayload)
     { imageSection := some bothShapesImageSection, videoSection := none, error := none }
     (by decide)⟩

/-- C23, as stated, fails: the image job `abc123` fetches a payload without
`images` (and without `sample_frames`); the page ends in the results view with
`error` null, and the results view is rendered with neither section and no
error line. -/
theorem missing_discriminant_counterexample :
    (imageJobDone noShapePayload).fileType = some .image ∧
    noShapePayload.images = none ∧
    (imageJobDone noShapePayload).view = .results ∧
    (imageJobDone noShapePayload).results = some noShapePayload ∧
    (imageJobDone noShapePayload).error = none ∧
    renderResults (imageJobDone noShapePayload) = .ok (some emptyResultsView) := by
  decide

/-- C23, amended: a fetched payload that lacks the part read for the job's
category (`images` for an image job, `sample_frames` for a video job) is stored
like any other by a `'completed'` tick before the 300th: `results` holds it,
`error` keeps its value, the view becomes `'results'` when the delayed switch
fires, and the results view is rendered with neither the image nor the video
section. -/
theorem missing_discriminant_renders_no_section (w : World) (i : Nat) (p : Poller)
    (error : Option String) (data : Payload)
    (hp : w.pollers[i]? = some p) (ha : p.active = true)
    (hlt : p.attempts + 1 < maxAttempts)
    (himg : w.app.fileType = some .image → data.images = none)
    (hvid : w.app.fileType = some .video → data.sample_frames = none) :
    ((w.tick i ⟨.ok "completed" error, .ok data⟩).viewTimeout).app.view = .results ∧
    ((w.tick i ⟨.ok "completed" error, .ok data⟩).viewTimeout).app.results = some data ∧
    ((w.tick i ⟨.ok "completed" error, .ok data⟩).viewTimeout).app.error = w.app.error ∧
    renderResults ((w.tick i ⟨.ok "completed" error, .ok data⟩).viewTimeout).app
        = .ok (some { imageSection := none, videoSection := none,
                      error := if jsTruthy w.app.error then w.app.error else none }) := by
  have hnot : ¬ (p.attempts + 1 ≥ maxAttempts) := Nat.not_le.mpr hlt
  have ht : ((w.tick i ⟨.ok "completed" error, .ok data⟩).viewTimeout).app
      = { w.app with results := some data, progress := 100, processing := false,
                     view := .results } := by
    rw [World.tick_eq w i p _ hp]
    simp [World.viewTimeout, World.put, World.env, Env.tick, ha, intervalCallback,
      timeoutCheck, clearInterval, hnot]
  rw [ht]
  refine ⟨rfl, rfl, rfl, ?_⟩
  have hip : renderImagePart
      { w.app with results := some data, progress := 100, processing := false,
                   view := .results } data = .ok none := by
    unfold renderImagePart
    by_cases hi : w.app.fileType = some .image
    · simp [hi, himg hi]
    · simp [hi]
  have hvp : renderVideoPart
      { w.app with results := some data, progress := 100, processing := false,
                   view := .results } data = .ok none := by
    unfold renderVideoPart
    by_cases hi : w.app.fileType = some .video
    · simp [hi, hvid hi]
    · simp [hi]
  simp only [renderResults, if_true, hip, hvp]

/-- C23, amended, at the image job `abc123` fetching a payload without `images`. -/
theorem missing_discriminant_renders_no_section_witness :
    ((photoJob.tick 0 ⟨.ok "completed" none, .ok noShapePayload⟩).viewTimeout).app.view
        = .results ∧
    ((photoJob.tick 0 ⟨.ok "completed" none, .ok noShapePayload⟩).viewTimeout).app.results
        = some noShapePayload ∧
    ((photoJob.tick 0 ⟨.ok "completed" none, .ok noShapePayload⟩).viewTimeout).app.error
        = none ∧
    renderResults ((photoJob.tick 0 ⟨.ok "completed" none, .ok noShapePayload⟩).viewTimeout).app
        = .ok (some emptyResultsView) :=
  missing_discriminant_renders_no_section photoJob 0 (pollStatus "abc123") none
    noShapePayload (by decide) rfl (by decide) (fun _ => rfl) (fun _ => rfl)

/-- The blur block is rendered without error exactly when the payload has no
`blur_detection` or one with a `level`. -/
theorem renderBlurInfo_completes (b : Option BlurDetection)
    (h : ∀ d, b = some d → d.level ≠ none) : ∃ info, renderBlurInfo b = .ok info := by
  cases b with
  | none => exact ⟨none, rfl⟩
  | some d =>
    cases hl : d.level with
    | none => exact absurd hl (h d rfl)
    | some level => exact ⟨_, by simp only [renderBlurInfo, hl]; rfl⟩

/-- The frames are rendered without error when each carries `images` and a
`blur_level`. -/
theorem renderFrames_completes (frames : List Frame)
    (h : ∀ f ∈ frames, f.images ≠ none ∧ f.blur_level ≠ none) :
    ∃ cards, renderFrames frames = .ok cards := by
  induction frames with
  | nil => exact ⟨[], rfl⟩
  | cons f fs ih =>
    obtain ⟨cards, hc⟩ := ih (fun x hx => h x (List.mem_cons_of_mem f hx))
    obtain ⟨h1, h2⟩ := h f (List.mem_cons_self f fs)
    cases hi : f.images with
    | none => exact absurd hi h1
    | some images =>
      cases hb : f.blur_level with
      | none => exact absurd hb h2
      | some level => exact ⟨_, by simp only [renderFrames, renderFrame, hi, hb, hc]; rfl⟩

/-- Rendering the results view completes whichever of `confidence_level`,
`ocr_result` and the comparison image are absent, provided a `blur_detection`
object has its `level` (image job) and every frame has its `images` and its
`blur_level` (video job). -/
theorem renderResults_completes (s : AppState)
    (himg : s.fileType = some .image → ∀ r d, s.results = some r →
      r.blur_detection = some d → d.level ≠ none)
    (hvid : s.fileType = some .video → ∀ r frames, s.results = some r →
      r.sample_frames = some frames → ∀ f ∈ frames, f.images ≠ none ∧ f.blur_level ≠ none) :
    ∃ v, renderResults s = .ok v := by
  unfold renderResults
  by_cases hv : s.view = .results
  · rw [if_pos hv]
    cases hr : s.results with
    | none => exact ⟨none, rfl⟩
    | some r =>
      dsimp only
      have hip : ∃ i, renderImagePart s r = .ok i := by
        unfold renderImagePart
        by_cases hi : s.fileType = some .image
        · rw [if_pos hi]
          cases him : r.images with
          | none => exact ⟨none, rfl⟩
          | some images =>
            obtain ⟨info, hinfo⟩ := renderBlurInfo_completes r.blur_detection
              (fun d hd => himg hi r d hr hd)
            exact ⟨_, by simp only [renderImageSection, hinfo]; rfl⟩
        · rw [if_neg hi]; exact ⟨none, rfl⟩
      have hvp : ∃ vs, renderVideoPart s r = .ok vs := by
        unfold renderVideoPart
        by_cases hi : s.fileType = some .video
        · rw [if_pos hi]
          cases hsf : r.sample_frames with
          | none => exact ⟨none, rfl⟩
          | some frames =>
            obtain ⟨cards, hc⟩ := renderFrames_completes frames (hvid hi r frames hr hsf)
            exact ⟨_, by simp only [renderVideoSection, hc]; rfl⟩
        · rw [if_neg hi]; exact ⟨none, rfl⟩
      obtain ⟨i, hi⟩ := hip
      obtain ⟨vs, hvs⟩ := hvp
      exact ⟨_, by rw [hi, hvs]⟩
  · rw [if_neg hv]; exact ⟨none, rfl⟩

/-- C24 at its failing inputs: a video payload every frame of which carries
`images`, one of them without `blur_level`, and an image payload with `images`
whose `blur_detection` object has no `level`; in both cases rendering the
results view throws a `TypeError` instead of completing. -/
theorem missing_blur_level_throws :
    frameWithoutBlurLevelPayload.sample_frames
        = some [plainFrame "f-30" 30, frameWithoutBlurLevel] ∧
    (plainFrame "f-30" 30).images ≠ none ∧
    frameWithoutBlurLevel.images ≠ none ∧
    frameWithoutBlurLevel.blur_level = none ∧
    (videoJobDone frameWithoutBlurLevelPayload).view = .results ∧
    renderResults (videoJobDone frameWithoutBlurLevelPayload)
        = .typeError "Cannot read properties of undefined (reading 'toUpperCase')" ∧
    blurWithoutLevelPayload.images ≠ none ∧
    (imageJobDone blurWithoutLevelPayload).view = .results ∧
    renderResults (imageJobDone blurWithoutLevelPayload)
        = .typeError "Cannot read properties of undefined (reading 'toUpperCase')" := by
  decide

/-! ## Frame cards -/

/-- The cards come in the order of the frames, one per frame, each with the
frame's id as key and the frame's number. -/
theorem renderFrames_ok (frames : List Frame) (cards : List FrameCard)
    (h : renderFrames frames = .ok cards) :
    cards.map (fun c => (c.key, c.frame_number))
      = frames.map (fun f => (f.frame_id, f.frame_number)) := by
  induction frames generalizing cards with
  | nil =>
    have : cards = [] := (Rendering.ok.inj h).symm
    subst this; rfl
  | cons f fs ih =>
    simp only [renderFrames] at h
    cases hf : renderFrame f with
    | typeError what => rw [hf] at h; simp at h
    | ok card =>
      rw [hf] at h
      dsimp only at h
      cases hfs : renderFrames fs with
      | typeError what => rw [hfs] at h; simp at h
      | ok rest =>
        rw [hfs] at h
        have hc : cards = card :: rest := (Rendering.ok.inj h).symm
        subst hc
        have hcard : (card.key, card.frame_number) = (f.frame_id, f.frame_number) := by
          unfold renderFrame at hf
          cases hi : f.images with
          | none => rw [hi] at hf; simp at hf
          | some images =>
            rw [hi] at hf
            dsimp only at hf
            cases hb : f.blur_level with
            | none => rw [hb] at hf; simp at hf
            | some level =>
              rw [hb] at hf
              have := Rendering.ok.inj hf
              subst this
              rfl
        simp only [List.map_cons, hcard, ih rest hfs]

/-- C25: whenever the results view of a video payload is rendered with its
video section, the frame cards correspond one-to-one and in order to
`sample_frames`: there are as many cards as frames and the `i`-th card has the
`i`-th frame's `frame_id` as key and shows its `frame_number`; and the view is
rendered so for a video job whenever every frame carries `images` and a
`blur_level`. -/
theorem frame_cards_follow_sample_frames (s : AppState) (results : Payload)
    (frames : List Frame) (hr : s.results = some results)
    (hsf : results.sample_frames = some frames) :
    (∀ v vs, renderResults s = .ok (some v) → v.videoSection = some vs →
      vs.cards.length = frames.length ∧
      vs.cards.map (fun (c : FrameCard) => (c.key, c.frame_number))
        = frames.map (fun (f : Frame) => (f.frame_id, f.frame_number)) ∧
      ∀ i : Nat, (vs.cards[i]?).map (fun (c : FrameCard) => (c.key, c.frame_number))
        = (frames[i]?).map (fun (f : Frame) => (f.frame_id, f.frame_number))) ∧
    (s.view = .results → s.fileType = some .video →
      (∀ f ∈ frames, f.images ≠ none ∧ f.blur_level ≠ none) →
      ∃ v vs, renderResults s = .ok (some v) ∧ v.videoSection = some vs) := by
  constructor
  · intro v vs h hvs
    obtain ⟨r, -, hr', -, hv, -⟩ := renderResults_inv s v h
    rw [hr] at hr'
    have hrr : results = r := Option.some.inj hr'
    subst hrr
    rcases hv with hn | ⟨-, frames', rendered, hsf', hren, hveq⟩
    · rw [hn] at hvs; exact absurd hvs (by simp)
    · rw [hsf] at hsf'
      have hff : frames = frames' := Option.some.inj hsf'
      subst hff
      rw [hveq] at hvs
      have hvv : rendered = vs := Option.some.inj hvs
      subst hvv
      unfold renderVideoSection at hren
      cases hc : renderFrames frames with
      | typeError what => rw [hc] at hren; simp at hren
      | ok cards =>
        rw [hc] at hren
        have hrv := Rendering.ok.inj hren
        subst hrv
        have hmap := renderFrames_ok frames cards hc
        refine ⟨?_, hmap, ?_⟩
        · have := congrArg List.length hmap
          simpa using this
        · intro i
          have := congrArg (fun l => l[i]?) hmap
          simpa [List.getElem?_map] using this
  · intro hv hft hall
    obtain ⟨cards, hc⟩ := renderFrames_completes frames hall
    have hnot : ¬ s.fileType = some .image := by rw [hft]; decide
    refine ⟨{ imageSection := none,
              videoSection := some { total_frames := results.total_frames,
                                     processed_frames := results.processed_frames,
                                     cards := cards },
              error := if jsTruthy s.error then s.error else none },
            { total_frames := results.total_frames,
              processed_frames := results.processed_frames, cards := cards }, ?_, rfl⟩
    simp [renderResults, hv, hr, renderImagePart, hnot, renderVideoPart, hft, hsf,
      renderVideoSection, hc]

/-- C25 at the video job `vid42` whose payload lists frame 30 before frame 10. -/
theorem frame_cards_follow_sample_frames_witness :
    ∃ v vs, renderResults (videoJobDone bothShapesPayload) = .ok (some v) ∧
      v.videoSection = some vs ∧
      vs.cards.length = 2 ∧
      vs.cards.map (fun (c : FrameCard) => (c.key, c.frame_number)) = [("f-30", 30), ("f-10", 10)] := by
  have hall : ∀ f ∈ [plainFrame "f-30" 30, plainFrame "f-10" 10],
      f.images ≠ none ∧ f.blur_level ≠ none := by decide
  have thm := frame_cards_follow_sample_frames (videoJobDone bothShapesPayload)
    bothShapesPayload [plainFrame "f-30" 30, plainFrame "f-10" 10] (by decide) rfl
  obtain ⟨v, vs, h1, h2⟩ := thm.2 (by decide) (by decide) hall
  obtain ⟨h3, h4, -⟩ := thm.1 v vs h1 h2
  exact ⟨v, vs, h1, h2, h3, h4⟩

/-! ## A completed job, end to end -/

/-- The React state after a `'completed'` tick before the 300th, with the
payload fetched and the delayed view switch fired. -/
theorem World.completed_tick_app (w : World) (i : Nat) (p : Poller)
    (error : Option String) (data : Payload)
    (hp : w.pollers[i]? = some p) (ha : p.active = true)
    (hlt : p.attempts + 1 < maxAttempts) :
    ((w.tick i ⟨.ok "completed" error, .ok data⟩).viewTimeout).app
      = { w.app with results := some data, progress := 100, processing := false,
                     view := .results } ∧
    (w.tick i ⟨.ok "completed" error, .ok data⟩).requests
      = w.requests ++ [.getProcessingStatus p.jobId, .getResult p.jobId] ∧
    (w.tick i ⟨.ok "completed" error, .ok data⟩).app.progress = 100 := by
  have hnot : ¬ (p.attempts + 1 ≥ maxAttempts) := Nat.not_le.mpr hlt
  rw [World.tick_eq w i p _ hp]
  refine ⟨?_, ?_, ?_⟩
  · simp [World.viewTimeout, World.put, World.env, Env.tick, ha, intervalCallback,
      timeoutCheck, clearInterval, hnot]
  · simp [World.put, World.env, Env.tick, ha, intervalCallback,
      timeoutCheck, clearInterval, hnot]
  · simp [World.put, World.env, Env.tick, ha, intervalCallback,
      timeoutCheck, clearInterval, hnot]

/-- C26: `photo.png` (image/png) is selected and submitted, the service answers
with the job id `abc123`, three status queries are answered `'processing'` and
the fourth `'completed'`, and the fetched payload carries `images` and a
`blur_detection` of level `'high'`: `progress` is 2, 4, 6 and then 100; the
requests issued are the submission, four status queries and one result fetch,
all for `abc123`; and once the delayed switch has fired the view is `'results'`,
`progress` is 100, `error` is null, `fileType` is `'image'` and the blur level is
rendered as `HIGH`. -/
theorem image_job_end_to_end (data : Payload) (images : Images) (variance : Option Int)
    (himg : data.images = some images)
    (hblur : data.blur_detection = some { level := some "high",
                                          laplacian_variance := variance }) :
    photoJob = World.initial.run
      [.handleImageSelect (some photoPng), .startProcessing .image (.ok "abc123")] ∧
    (photoJob.runTicks 0 [processingTick]).app.progress = 2 ∧
    (photoJob.runTicks 0 [processingTick, processingTick]).app.progress = 4 ∧
    (photoJob.runTicks 0 [processingTick, processingTick, processingTick]).app.progress = 6 ∧
    ((photoJob.runTicks 0 [processingTick, processingTick, processingTick]).tick 0
        ⟨.ok "completed" none, .ok data⟩).app.progress = 100 ∧
    ((photoJob.runTicks 0 [processingTick, processingTick, processingTick]).tick 0
        ⟨.ok "completed" none, .ok data⟩).requests
      = [.processFrame photoPng, .getProcessingStatus "abc123",
         .getProcessingStatus "abc123", .getProcessingStatus "abc123",
         .getProcessingStatus "abc123", .getResult "abc123"] ∧
    (((photoJob.runTicks 0 [processingTick, processingTick, processingTick]).tick 0
        ⟨.ok "completed" none, .ok data⟩).viewTimeout).app
      = { view := .results, imageFile := some photoPng, videoFile := none,
          fileType := some .image, progress := 100, jobId := some "abc123",
          results := some data, error := none, processing := false } ∧
    ∃ v rendered,
      renderResults (((photoJob.runTicks 0
          [processingTick, processingTick, processingTick]).tick 0
          ⟨.ok "completed" none, .ok data⟩).viewTimeout).app = .ok (some v) ∧
      v.imageSection = some rendered ∧ v.videoSection = none ∧ v.error = none ∧
      rendered.blurInfo = some { level := "HIGH", laplacian_variance := variance } := by
  have hp3 : (photoJob.runTicks 0 [processingTick, processingTick, processingTick]).pollers[0]?
      = some { jobId := "abc123", attempts := 3, active := true } := by decide
  have happ3 : (photoJob.runTicks 0 [processingTick, processingTick, processingTick]).app
      = { view := .processing, imageFile := some photoPng, videoFile := none,
          fileType := some .image, progress := 6, jobId := some "abc123",
          results := none, error := none, processing := true } := by decide
  have hreq3 : (photoJob.runTicks 0 [processingTick, processingTick, processingTick]).requests
      = [.processFrame photoPng, .getProcessingStatus "abc123",
         .getProcessingStatus "abc123", .getProcessingStatus "abc123"] := by decide
  obtain ⟨hdone, hreq, hprog⟩ :=
    World.completed_tick_app _ 0 _ none data hp3 rfl (by decide)
  have hup : jsToUpperCase "high" = "HIGH" := by decide
  refine ⟨rfl, by decide, by decide, by decide, hprog, ?_, ?_, ?_⟩
  · rw [hreq, hreq3]; rfl
  · rw [hdone, happ3]
  · rw [hdone, happ3]
    have hb : renderBlurInfo data.blur_detection
        = .ok (some { level := "HIGH", laplacian_variance := variance }) := by
      rw [hblur]
      simp only [renderBlurInfo, hup]
    obtain ⟨rendered, hsec, hbi⟩ : ∃ rendered, renderImageSection data images = .ok rendered ∧
        rendered.blurInfo = some { level := "HIGH", laplacian_variance := variance } :=
      ⟨{ originalSrc := dataUrl images.original,
         blurInfo := some { level := "HIGH", laplacian_variance := variance },
         enhancedSrc := dataUrl images.enhanced,
         confidence :=
           if jsTruthy data.confidence_level then
             some { value := data.confidence_level.getD "",
                    delta := data.ocr_result.map (fun o => o.improvement) }
           else none,
         comparisonSrc :=
           if jsTruthy images.comparison then some (dataUrl images.comparison) else none,
         ocr := data.ocr_result },
       by simp only [renderImageSection, hb], rfl⟩
    refine ⟨{ imageSection := some rendered, videoSection := none, error := none }, rendered,
      ?_, rfl, rfl, rfl, hbi⟩
    simp [renderResults, renderImagePart, renderVideoPart, himg, hsec, jsTruthy]

/-- C26 at the payload `highBlurPayload`. -/
theorem image_job_end_to_end_witness :
    (photoJob.runTicks 0 [processingTick, processingTick, processingTick]).app.progress = 6 ∧
    (((photoJob.runTicks 0 [processingTick, processingTick, processingTick]).tick 0
        ⟨.ok "completed" none, .ok highBlurPayload⟩).viewTimeout).app
      = { view := .results, imageFile := some photoPng, videoFile := none,
          fileType := some .image, progress := 100, jobId := some "abc123",
          results := some highBlurPayload, error := none, processing := false } ∧
    ∃ v rendered,
      renderResults (((photoJob.runTicks 0
          [processingTick, processingTick, processingTick]).tick 0
          ⟨.ok "completed" none, .ok highBlurPayload⟩).viewTimeout).app = .ok (some v) ∧
      v.imageSection = some rendered ∧ v.videoSection = none ∧ v.error = none ∧
      rendered.blurInfo = some { level := "HIGH", laplacian_variance := some 42 } :=
  ⟨(image_job_end_to_end highBlurPayload _ (some 42) rfl rfl).2.2.2.1,
   (image_job_end_to_end highBlurPayload _ (some 42) rfl rfl).2.2.2.2.2.2.1,
   (image_job_end_to_end highBlurPayload _ (some 42) rfl rfl).2.2.2.2.2.2.2⟩

/-! ## A terminal answer on the 300th tick -/

/-- C28: on the tick that brings `attempts` to 300 the timeout check runs after
the terminal branch. If the status is `'completed'` and the payload is
fetched, then right after the tick `results` holds the payload and `progress`
is 100 while `error` is `'Processing timeout'` and `view` is `'upload'`; when the
delayed switch fires the view is `'results'` with the error still set, and a
results view rendered from that state shows the error line. If the status is
`'error'`, the error left in the state is `'Processing timeout'`, whatever
message the server sent. -/
theorem terminal_answer_on_tick_300_overridden (w : World) (i : Nat) (p : Poller)
    (error msg : Option String) (data : Payload) (rr : ResultResponse)
    (hp : w.pollers[i]? = some p) (ha : p.active = true)
    (hlast : p.attempts + 1 = maxAttempts) :
    (w.tick i ⟨.ok "completed" error, .ok data⟩).app.results = some data ∧
    (w.tick i ⟨.ok "completed" error, .ok data⟩).app.progress = 100 ∧
    (w.tick i ⟨.ok "completed" error, .ok data⟩).app.error = some "Processing timeout" ∧
    (w.tick i ⟨.ok "completed" error, .ok data⟩).app.view = .upload ∧
    ((w.tick i ⟨.ok "completed" error, .ok data⟩).viewTimeout).app.view = .results ∧
    ((w.tick i ⟨.ok "completed" error, .ok data⟩).viewTimeout).app.error
        = some "Processing timeout" ∧
    (∀ v, renderResults ((w.tick i ⟨.ok "completed" error, .ok data⟩).viewTimeout).app
        = .ok (some v) → v.error = some "Processing timeout") ∧
    (w.tick i ⟨.ok "error" msg, rr⟩).app.error = some "Processing timeout" := by
  have hge : maxAttempts ≤ p.attempts + 1 := Nat.le_of_eq hlast.symm
  have hc : (w.tick i ⟨.ok "completed" error, .ok data⟩).app
      = { w.app with results := some data, progress := 100,
                     error := some "Processing timeout", processing := false,
                     view := .upload } := by
    rw [World.tick_eq w i p _ hp]
    simp [World.put, World.env, Env.tick, ha, intervalCallback, timeoutCheck,
      clearInterval, hge]
  have hv : ((w.tick i ⟨.ok "completed" error, .ok data⟩).viewTimeout).app
      = { w.app with results := some data, progress := 100,
                     error := some "Processing timeout", processing := false,
                     view := .results } := by
    rw [World.tick_eq w i p _ hp]
    simp [World.viewTimeout, World.put, World.env, Env.tick, ha, intervalCallback,
      timeoutCheck, clearInterval, hge]
  refine ⟨?_, ?_, ?_, ?_, ?_, ?_, ?_, ?_⟩
  · rw [hc]
  · rw [hc]
  · rw [hc]
  · rw [hc]
  · rw [hv]
  · rw [hv]
  · intro v hren
    obtain ⟨-, -, -, -, -, herr⟩ := renderResults_inv _ v hren
    rw [herr, hv]
    show (if jsTruthy (some "Processing timeout") = true then some "Processing timeout"
      else none) = some "Processing timeout"
    decide
  · rw [World.tick_eq w i p _ hp]
    exact Env.tick_error_at_limit (w.env p) msg rr ha hge

/-- C28 at the job `abc123` after 299 answers `'queued'`, whose 300th answer is
`'completed'` with `highBlurPayload`, or `'error'` with `'Model crashed'`. -/
theorem terminal_answer_on_tick_300_overridden_witness :
    ((queuedSession 299).world.tick 0 ⟨.ok "completed" none, .ok highBlurPayload⟩).app.results
        = some highBlurPayload ∧
    ((queuedSession 299).world.tick 0 ⟨.ok "completed" none, .ok highBlurPayload⟩).app.progress
        = 100 ∧
    ((queuedSession 299).world.tick 0 ⟨.ok "completed" none, .ok highBlurPayload⟩).app.error
        = some "Processing timeout" ∧
    ((queuedSession 299).world.tick 0 ⟨.ok "completed" none, .ok highBlurPayload⟩).app.view
        = .upload ∧
    (((queuedSession 299).world.tick 0
        ⟨.ok "completed" none, .ok highBlurPayload⟩).viewTimeout).app.view = .results ∧
    (((queuedSession 299).world.tick 0
        ⟨.ok "completed" none, .ok highBlurPayload⟩).viewTimeout).app.error
        = some "Processing timeout" ∧
    ((queuedSession 299).world.tick 0
        ⟨.ok "error" (some "Model crashed"), .fail none⟩).app.error
        = some "Processing timeout" :=
  ⟨(terminal_answer_on_tick_300_overridden (queuedSession 299).world 0
      { jobId := "abc123", attempts := 299, active := true } none (some "Model crashed")
      highBlurPayload (.fail none) rfl rfl rfl).1,
   (terminal_answer_on_tick_300_overridden (queuedSession 299).world 0
      { jobId := "abc123", attempts := 299, active := true } none (some "Model crashed")
      highBlurPayload (.fail none) rfl rfl rfl).2.1,
   (terminal_answer_on_tick_300_overridden (queuedSession 299).world 0
      { jobId := "abc123", attempts := 299, active := true } none (some "Model crashed")
      highBlurPayload (.fail none) rfl rfl rfl).2.2.1,
   (terminal_answer_on_tick_300_overridden (queuedSession 299).world 0
      { jobId := "abc123", attempts := 299, active := true } none (some "Model crashed")
      highBlurPayload (.fail none) rfl rfl rfl).2.2.2.1,
   (terminal_answer_on_tick_300_overridden (queuedSession 299).world 0
      { jobId := "abc123", attempts := 299, active := true } none (some "Model crashed")
      highBlurPayload (.fail none) rfl rfl rfl).2.2.2.2.1,
   (terminal_answer_on_tick_300_overridden (queuedSession 299).world 0
      { jobId := "abc123", attempts := 299, active := true } none (some "Model crashed")
      highBlurPayload (.fail none) rfl rfl rfl).2.2.2.2.2.1,
   (terminal_answer_on_tick_300_overridden (queuedSession 299).world 0
      { jobId := "abc123", attempts := 299, active := true } none (some "Model crashed")
      highBlurPayload (.fail none) rfl rfl rfl).2.2.2.2.2.2.2⟩

/-! ## Ticks that overtake their answers -/

/-- The sequential callback is the sending of the query followed by the
handling of its answer. -/
theorem intervalCallback_eq_send_then_handle (e : Env) (r : TickResponse) :
    intervalCallback e r = handleStatusAnswer (sendStatusQuery e) r := rfl

/-- Ticks of a running timer without a handled answer: each sends a query, and
the timer keeps running. -/
theorem AsyncSession.run_timerFires (n : Nat) (a : AsyncSession)
    (ha : a.env.poller.active = true) :
    (a.run (List.replicate n .timerFires)).inFlight = a.inFlight + n ∧
    (a.run (List.replicate n .timerFires)).env.requests
      = a.env.requests ++ List.replicate n (.getProcessingStatus a.env.poller.jobId) ∧
    (a.run (List.replicate n .timerFires)).env.poller
      = { a.env.poller with attempts := a.env.poller.attempts + n } ∧
    (a.run (List.replicate n .timerFires)).env.app = a.env.app := by
  induction n generalizing a with
  | zero => simp [AsyncSession.run]
  | succ n ih =>
    have hstep : a.step .timerFires
        = { env := sendStatusQuery a.env, inFlight := a.inFlight + 1 } := by
      simp [AsyncSession.step, ha]
    have hrun : a.run (List.replicate (n + 1) .timerFires)
        = (a.step .timerFires).run (List.replicate n .timerFires) := by
      simp [AsyncSession.run, List.replicate_succ]
    obtain ⟨h1, h2, h3, h4⟩ := ih (a.step .timerFires) (by rw [hstep]; exact ha)
    rw [hrun, h1, h2, h3, h4, hstep]
    refine ⟨by simp only []; omega, ?_, ?_, rfl⟩
    · simp [sendStatusQuery, List.replicate_succ]
    · simp [sendStatusQuery, Nat.add_assoc, Nat.add_comm 1]

/-- C27, as stated, fails: for the job `abc123`, when the answer to the first
status query takes longer than the interval, the timer fires again and the
second status query is sent while the first is unanswered: two status queries
are in flight. -/
theorem sequential_queries_counterexample :
    photoSession.inFlight = 0 ∧
    (photoSession.run [.timerFires, .timerFires]).inFlight = 2 ∧
    (photoSession.run [.timerFires, .timerFires]).env.requests
      = photoJob.requests ++ [.getProcessingStatus "abc123", .getProcessingStatus "abc123"] ∧
    (photoSession.run [.timerFires, .timerFires]).env.poller.attempts = 2 := by
  decide

/-- C27, amended: the status query of a tick is sent when the timer fires,
whether or not earlier answers have been handled: `n` ticks of a running timer
without a handled answer send `n` status queries and put `n` more in flight.
When the answer of a tick is handled before the next tick, the tick is one run
of the sequential callback and the number of queries in flight is what it was
before the tick. -/
theorem status_queries_follow_the_timer (a : AsyncSession) (n : Nat) (r : TickResponse)
    (ha : a.env.poller.active = true) :
    (a.run (List.replicate n .timerFires)).inFlight = a.inFlight + n ∧
    (a.run (List.replicate n .timerFires)).env.requests
      = a.env.requests ++ List.replicate n (.getProcessingStatus a.env.poller.jobId) ∧
    a.run [.timerFires, .answerArrives r]
      = { env := intervalCallback a.env r, inFlight := a.inFlight } := by
  obtain ⟨h1, h2, -, -⟩ := AsyncSession.run_timerFires n a ha
  refine ⟨h1, h2, ?_⟩
  simp [AsyncSession.run, AsyncSession.step, ha, intervalCallback_eq_send_then_handle]

/-- C27, amended, at the job `abc123`: three ticks without an answer, and one
tick answered `'processing'` before the next. -/
theorem status_queries_follow_the_timer_witness :
    (photoSession.run (List.replicate 3 .timerFires)).inFlight = 0 + 3 ∧
    (photoSession.run (List.replicate 3 .timerFires)).env.requests
      = photoSession.env.requests ++ List.replicate 3 (.getProcessingStatus "abc123") ∧
    photoSession.run [.timerFires, .answerArrives processingTick]
      = { env := intervalCallback photoSession.env processingTick, inFlight := 0 } :=
  status_queries_follow_the_timer photoSession 3 processingTick rfl

/-! ## Polling sessions whose answers are late -/

/-- Events after events. -/
theorem AsyncSession.run_append (a : AsyncSession) (xs ys : List AsyncEvent) :
    a.run (xs ++ ys) = (a.run xs).run ys := by
  simp [AsyncSession.run, List.foldl_append]

/-- A tick whose answer arrives before the next tick, with no query in flight
before it, is a tick of the sequential model. -/
theorem AsyncSession.run_promptTick (a : AsyncSession) (r : TickResponse)
    (h0 : a.inFlight = 0) :
    a.run [.timerFires, .answerArrives r] = { env := a.env.tick r, inFlight := 0 } := by
  obtain ⟨e, k⟩ := a
  simp only at h0
  subst h0
  by_cases ha : e.poller.active = true
  · simp [AsyncSession.run, AsyncSession.step, ha, Env.tick,
      intervalCallback_eq_send_then_handle]
  · simp [AsyncSession.run, AsyncSession.step, ha, Env.tick]

/-- Ticks each answered before the next, with no query in flight before them,
are the ticks of the sequential model. -/
theorem AsyncSession.run_promptTicks (rs : List TickResponse) (a : AsyncSession)
    (h0 : a.inFlight = 0) :
    a.run (rs.foldr (fun r events => .timerFires :: .answerArrives r :: events) [])
      = { env := a.env.runTicks rs, inFlight := 0 } := by
  induction rs generalizing a with
  | nil =>
    obtain ⟨e, k⟩ := a
    simp only at h0
    subst h0
    rfl
  | cons r rs ih =>
    have hsplit : (r :: rs).foldr
        (fun r events => AsyncEvent.timerFires :: AsyncEvent.answerArrives r :: events) []
        = [.timerFires, .answerArrives r] ++
          rs.foldr (fun r events => .timerFires :: .answerArrives r :: events) [] := rfl
    rw [hsplit, AsyncSession.run_append, AsyncSession.run_promptTick a r h0, ih _ rfl]
    rfl

/-- The job `abc123` after fewer than 300 ticks answered `'queued'` at once. -/
theorem run_promptTicks_queued (n k : Nat) (h : k + n < 300) :
    (queuedAsync k).run (promptTicks queuedTick n) = queuedAsync (k + n) := by
  induction n generalizing k with
  | zero => rfl
  | succ n ih =>
    have hnot : ¬ (k + 1 ≥ maxAttempts) := by
      simp only [maxAttempts]; omega
    have hstep : (queuedAsync k).run [.timerFires, .answerArrives queuedTick]
        = queuedAsync (k + 1) := by
      simp [queuedAsync, queuedSession, World.env, AsyncSession.run, AsyncSession.step,
        sendStatusQuery, handleStatusAnswer, queuedTick, timeoutCheck, hnot,
        List.replicate_succ']
    have hsplit : promptTicks queuedTick (n + 1)
        = [.timerFires, .answerArrives queuedTick] ++ promptTicks queuedTick n := rfl
    rw [hsplit, AsyncSession.run_append, hstep, ih (k + 1) (by omega)]
    have : k + 1 + n = k + (n + 1) := by omega
    rw [this]

/-- The status queries among `n` status queries. -/
theorem statusQueries_replicate (n : Nat) (jobId : String) :
    statusQueries (List.replicate n (.getProcessingStatus jobId)) = n := by
  simp [statusQueries, List.countP_replicate, Request.isStatusQuery]

/-- The job `abc123` starts as `queuedAsync 0`. -/
theorem photoSession_eq : photoSession = queuedAsync 0 := by
  decide

/-- The status queries issued when, after `n` ticks answered at once, one tick
fires, and when three ticks fire before the answer `'queued'` of the first is
handled. -/
theorem statusQueries_queuedAsync_late (n : Nat) :
    statusQueries ((queuedAsync n).run [.timerFires]).env.requests = n + 1 ∧
    statusQueries ((queuedAsync n).run
      [.timerFires, .timerFires, .timerFires, .answerArrives queuedTick]).env.requests
        = n + 3 := by
  have hq0 : statusQueries photoJob.requests = 0 := by decide
  constructor
  · simp [queuedAsync, queuedSession, World.env, AsyncSession.run, AsyncSession.step,
      sendStatusQuery, statusQueries_append, statusQueries_replicate, hq0]
    rfl
  · simp only [queuedAsync, queuedSession, World.env, AsyncSession.run, AsyncSession.step,
      sendStatusQuery, handleStatusAnswer, queuedTick, timeoutCheck, clearInterval,
      List.foldl]
    simp
    split <;>
      simp [statusQueries_append, statusQueries_replicate, hq0] <;> rfl

/-- The job `abc123` after 299 ticks answered `'queued'` at once. -/
theorem run_promptTicks_299 :
    photoSession.run (promptTicks queuedTick 299) = queuedAsync 299 := by
  rw [photoSession_eq]
  exact run_promptTicks_queued 299 0 (by decide)

/-- C7 at its failing input: every status query of the job `abc123` is
answered `'queued'`, the first 299 at once and the 300th only after the ticks
301 and 302 have fired. After exactly 300 ticks the timer is still running and
no timeout is reported; by the time the timeout is reported 302 status queries
have been issued, not 300. -/
theorem late_answer_on_tick_300_sends_302_queries :
    queuedTick.status.nonTerminal = true ∧
    (photoSession.run lateAnswerAfter300Ticks).env.poller
        = { jobId := "abc123", attempts := 300, active := true } ∧
    (photoSession.run lateAnswerAfter300Ticks).env.app.error = none ∧
    (photoSession.run lateAnswerAfter300Ticks).env.app.view = .processing ∧
    statusQueries (photoSession.run lateAnswerAfter300Ticks).env.requests = 300 ∧
    (photoSession.run lateAnswerHandled).env.poller
        = { jobId := "abc123", attempts := 302, active := false } ∧
    (photoSession.run lateAnswerHandled).env.app.error = some "Processing timeout" ∧
    statusQueries (photoSession.run lateAnswerHandled).env.requests = 302 := by
  have h300 : photoSession.run lateAnswerAfter300Ticks
      = (queuedAsync 299).run [.timerFires] := by
    rw [lateAnswerAfter300Ticks, AsyncSession.run_append, run_promptTicks_299]
  have hlate : photoSession.run lateAnswerHandled
      = (queuedAsync 299).run
          [.timerFires, .timerFires, .timerFires, .answerArrives queuedTick] := by
    rw [lateAnswerHandled, AsyncSession.run_append, run_promptTicks_299]
  refine ⟨by decide, ?_, ?_, ?_, ?_, ?_, ?_, ?_⟩
  · rw [h300]; rfl
  · rw [h300]; rfl
  · rw [h300]; rfl
  · rw [h300]; exact (statusQueries_queuedAsync_late 299).1
  · rw [hlate]; rfl
  · rw [hlate]; rfl
  · rw [hlate]; exact (statusQueries_queuedAsync_late 299).2

/-- C8 at its failing input: the status queries of the job `abc123` are left
unanswered. After 1000 ticks 1000 status queries have been issued, the timer is
still running and no error is reported. -/
theorem unanswered_queries_pass_the_ceiling :
    statusQueries (photoSession.run (List.replicate 1000 .timerFires)).env.requests = 1000 ∧
    (photoSession.run (List.replicate 1000 .timerFires)).inFlight = 1000 ∧
    (photoSession.run (List.replicate 1000 .timerFires)).env.poller
        = { jobId := "abc123", attempts := 1000, active := true } ∧
    (photoSession.run (List.replicate 1000 .timerFires)).env.app.error = none ∧
    (photoSession.run (List.replicate 1000 .timerFires)).env.app.view = .processing := by
  obtain ⟨h1, h2, h3, h4⟩ := AsyncSession.run_timerFires 1000 photoSession rfl
  have hq0 : statusQueries photoSession.env.requests = 0 := by decide
  refine ⟨?_, ?_, ?_, ?_, ?_⟩
  · rw [h2, statusQueries_append, statusQueries_replicate, hq0]
  · rw [h1]; rfl
  · rw [h3]; rfl
  · rw [h4]; rfl
  · rw [h4]; rfl

/-- C10 at its failing inputs. Within the session of the job `abc123`: two
ticks fire before any answer; the first answer is `'completed'` with its
payload and sets `progress` to 100; the second answer, `'processing'`, is
handled afterwards and lowers `progress` to 95, no job having been started and
no reset made. Within the job `job-C` of `raceTwoTimers`: the poller of the
earlier job `job-B` receives `'completed'` and sets `progress` to 100, then the
job's own tick answered `'processing'` lowers it to 95. -/
theorem late_answer_lowers_progress :
    (photoSession.run [.timerFires, .timerFires]).env.app.progress = 0 ∧
    (photoSession.run
      [.timerFires, .timerFires, .answerArrives completedTick]).env.app.progress = 100 ∧
    (photoSession.run
      [.timerFires, .timerFires, .answerArrives completedTick,
        .answerArrives processingTick]).env.app.progress = 95 ∧
    Reachable raceTwoTimers ∧
    raceTwoTimers.world.app.jobId = some "job-C" ∧
    raceTwoTimers.world.pollers[2]? = some { jobId := "job-C", attempts := 0, active := true } ∧
    (raceTwoTimers.step (.tick 1 completedTick)).world.app.progress = 100 ∧
    ((raceTwoTimers.step (.tick 1 completedTick)).step
      (.tick 2 processingTick)).world.app.progress = 95 ∧
    ((raceTwoTimers.step (.tick 1 completedTick)).step
      (.tick 2 processingTick)).world.app.jobId = some "job-C" := by
  refine ⟨by decide, by decide, by decide, reachable_raceTwoTimers, by decide, by decide,
    by decide, by decide, by decide⟩

/-- The state `raceResultsView` is reachable. -/
theorem reachable_raceResultsView : Reachable raceResultsView := by
  have h0 := reachable_queuedSession 299 (by decide)
  have h1 := Reachable.step _ (.tick 0 completedTick) h0 (by decide)
  have h2 := Reachable.step _ (.startProcessing .image (.ok "job-B")) h1 (by decide)
  exact Reachable.step _ .viewTimeout h2 (by decide)

/-- C14 at its failing input: in the reachable state `raceResultsView` the
results view is shown while the timer of `job-B` runs, and the page offers the
back button. After `resetView` that timer is still running, and its next tick
changes the state: an answer `'processing'` raises `progress` from 0 to 2, an
answer `'completed'` with its payload sets `results` and `progress` and, when
the delayed switch fires, the view. -/
theorem reset_leaves_stale_timer_running :
    Reachable raceResultsView ∧
    raceResultsView.world.app.view = .results ∧
    activeTimers raceResultsView.world = 1 ∧
    Op.enabled raceResultsView.world .resetView = true ∧
    raceResultsView.step .resetView = raceAfterReset ∧
    raceAfterReset.world.app = AppState.initial ∧
    raceAfterReset.world.pollers[1]?
        = some { jobId := "job-B", attempts := 0, active := true } ∧
    activeTimers raceAfterReset.world = 1 ∧
    (raceAfterReset.step (.tick 1 processingTick)).world.app.progress = 2 ∧
    (raceAfterReset.step (.tick 1 completedTick)).world.app.results
        = some highBlurPayload ∧
    (raceAfterReset.step (.tick 1 completedTick)).world.app.progress = 100 ∧
    ((raceAfterReset.step (.tick 1 completedTick)).step .viewTimeout).world.app.view
        = .results := by
  refine ⟨reachable_raceResultsView, by decide, by decide, by decide, rfl, by decide,
    by decide, by decide, by decide, by decide, by decide, by decide⟩

end RailGuard
